import Mathlib

/-!
# microkube: scheduler handler, test bring-up helper and manifest code generator

A shallow embedding of

* `pkg/handlers/kube/KubeSchedulerHandler.go`
* `pkg/helpers/TestHelper.go`
* `internal/manifests/ManifestCodegen.go`

Go strings are Lean strings, read through their list of characters.  A Go
`error` is `Option String`: `none` is the nil error and `some m` an error
whose `Error()` text is `m`.  Calls that leave the program (file system,
child processes, HTTP probes, other packages) are answered by a `World`
record of results, and every function returns the list of such calls it
made, in order.
-/

namespace Microkube

/-! ## Strings and package `fmt` -/

/-- Value of Go's interface type `error`: `none` is nil, `some m` has `Error() = m`. -/
abbrev error := Option String

/-- Rendering of an `error` operand under the verb `%s`: the `Error()` text, and
the bad-verb text `%!s(<nil>)` for a nil operand. -/
def verbS : error → List Char
  | some m => m.data
  | none => "%!s(<nil>)".data

/-- Go's `fmt.Sprintf` on operands of type `error`, for the directives the
sources use.  Plain characters are copied, `%%` is a percent sign, `%s`
renders the next operand (`%!s(MISSING)` when none is left).  Every other
directive, and operands left over at the end of the format, are rendered by
`fmtOther`, which stands for the rest of package `fmt` and receives the
unread format and operands. -/
def Sprintf (fmtOther : List Char → List error → List Char) :
    List Char → List error → List Char
  | [], args => if args = [] then [] else fmtOther [] args
  | c :: rest, args =>
    if c = '%' then
      match rest with
      | [] => fmtOther [c] args
      | d :: rest2 =>
        if d = '%' then '%' :: Sprintf fmtOther rest2 args
        else if d = 's' then
          match args with
          | [] => "%!s(MISSING)".data ++ Sprintf fmtOther rest2 []
          | a :: as => verbS a ++ Sprintf fmtOther rest2 as
        else fmtOther (c :: rest) args
    else c :: Sprintf fmtOther rest args

/-- Go's `fmt.Errorf(format, a)` with one operand: a non-nil error whose text is
the formatted string. -/
def Errorf (fmtOther : List Char → List error → List Char) (format : String) (a : error) :
    String :=
  ⟨Sprintf fmtOther format.data [a]⟩

/-- Go's `strings.Trim(s, cutset)`: `s` without its leading and trailing
characters that occur in `cutset`. -/
def Trim (s cutset : String) : String :=
  ⟨(s.data.dropWhile (fun c => decide (c ∈ cutset.data))).rdropWhile
    (fun c => decide (c ∈ cutset.data))⟩

/-! ## `KubeSchedulerHandler.healthCheckFun` -/

/-- The method `healthCheckFun` of `KubeSchedulerHandler`.  The argument is
what `ioutil.ReadAll(*responseBin)` returned: the body read and the read
error. -/
def healthCheckFun (readAll : String × error) : error :=
  match readAll.2 with
  | some err => some err
  | none =>
    if Trim readAll.1 " \r\n" ≠ "ok" then
      some ("Health != ok: " ++ readAll.1)
    else none

/-- White space as Go's `unicode.IsSpace` defines it, the reading of the phrase
"trimmed of whitespace". -/
def isSpace (c : Char) : Bool :=
  c = '\t' || c = '\n' || c.toNat = 0x0B || c.toNat = 0x0C || c = '\r' || c = ' ' ||
  c.toNat = 0x85 || c.toNat = 0xA0 || c.toNat = 0x1680 ||
  (0x2000 ≤ c.toNat && c.toNat ≤ 0x200A) || c.toNat = 0x2028 || c.toNat = 0x2029 ||
  c.toNat = 0x202F || c.toNat = 0x205F || c.toNat = 0x3000

/-- The body trimmed of leading and trailing white space, following the words
of the specification (Go's `strings.TrimSpace`). -/
def trimWhitespace (s : String) : String :=
  ⟨(s.data.dropWhile isSpace).rdropWhile isSpace⟩

/-- Characters of the cut set that `healthCheckFun` passes to `strings.Trim`. -/
def inCutset (c : Char) : Bool := decide (c ∈ " \r\n".data)

/-! ## Data model of the handlers -/

/-- The type `handlers.HealthMessage`: the result of one health probe. -/
structure HealthMessage where
  IsHealthy : Bool
  Error : error
deriving DecidableEq, Repr

/-- The type `pki.MicrokubeCredentials`; the sources read its field `Kubeconfig`. -/
structure MicrokubeCredentials where
  Kubeconfig : String
deriving DecidableEq, Repr

/-- The output closure built by `StartHandlerForTest`: it prints a line tagged
with `name` when `print` is set. -/
structure OutputHandler where
  print : Bool
  name : String
deriving DecidableEq, Repr

/-- A `handlers.ExitHandler` callback, by identity. -/
abbrev ExitHandler := Nat

/-- The type `handlers.ExecutionEnvironment`: the fields that `StartHandlerForTest`
sets, the scheduler health port read by `NewKubeSchedulerHandler`, and the other
port assignments. -/
structure ExecutionEnvironment where
  Binary : String
  ListenAddress : String
  OutputHandler : OutputHandler
  ExitHandler : ExitHandler
  Workdir : String
  SudoMethod : String
  DNSAddress : String
  KubeSchedulerHealthPort : Int
  otherPorts : List Int
deriving DecidableEq, Repr

/-- The embedded `handlers.BaseServiceHandler` as `handlers.NewHandler` receives
it: the exit handler and the health-check URL (the health-check, stop and start
functions it also receives are the methods of the enclosing handler). -/
structure BaseServiceHandler where
  exit : ExitHandler
  healthCheckURL : String
deriving DecidableEq, Repr

/-- The struct `KubeSchedulerHandler`.  `cmd` is a pointer to a `helpers.CmdHandler`:
`none` is nil, `some r` refers to the `r`-th `CmdHandler` allocated. -/
structure KubeSchedulerHandler where
  BaseServiceHandler : BaseServiceHandler
  cmd : Option Nat
  binary : String
  kubeconfig : String
  config : String
  out : OutputHandler
deriving DecidableEq, Repr

/-- A value of the interface `handlers.ServiceHandler`: a scheduler handler, or
the handler of another service, known by its identity. -/
inductive ServiceHandler where
  | kubeScheduler (h : KubeSchedulerHandler)
  | other (id : String)
deriving DecidableEq, Repr

/-- Calls that leave the program, in the order they are made. -/
inductive Event where
  | TempDir (pattern : String)
  | CreateOrLoadCertificates (dir : String)
  | FindBinary (binary : String)
  | Start (h : ServiceHandler)
  | EnableHealthChecks (h : ServiceHandler) (again : Bool)
  | Receive (msg : HealthMessage)
  | Sleep (seconds : Nat)
  | CreateClientKubeconfig (path : String)
  | CreateKubeSchedulerConfig (path : String)
  | NewHandler (url : String)
deriving DecidableEq, Repr

/-- A Go slice of handlers: `none` is the nil slice. -/
abbrev HandlerSlice := Option (List ServiceHandler)

/-- The type `UUTConstrutor`.  A constructor returns its two results, or `none`
when it panics, together with the calls it made. -/
abbrev UUTConstrutor :=
  ExecutionEnvironment → Option MicrokubeCredentials →
    Option (HandlerSlice × error) × List Event

/-- Results of the calls that leave the three source files.  `Start h` is what
`h.Start()` returns.  `health h k` is the message that the `k`-th single-shot
health check of `h` (counted from 0) puts on the channel: as the specification
has it, `EnableHealthChecks(resultChannel, false)` runs a single check and writes
its `HealthMessage` to the channel, so each call is answered by one message.
`fmtOther` and `pathJoin` stand for the parts of the packages `fmt` and `path`
that are not spelled out here. -/
structure World where
  fmtOther : List Char → List error → List Char
  pathJoin : String → String → String
  TempDir : String → String × error
  CreateOrLoadCertificates : String → MicrokubeCredentials × error
  FindBinary : String → String × error
  InitPorts : ExecutionEnvironment → Int → ExecutionEnvironment
  CopyInformationFromBase : ExecutionEnvironment → ExecutionEnvironment → ExecutionEnvironment
  Start : ServiceHandler → error
  health : ServiceHandler → Nat → HealthMessage
  kubeApiServerConstructor : UUTConstrutor
  CreateClientKubeconfig :
    ExecutionEnvironment → Option MicrokubeCredentials → String → String → error
  CreateKubeSchedulerConfig : String → String → ExecutionEnvironment → error

/-- The four results of `StartHandlerForTest`. -/
structure StartResult where
  handlerList : HandlerSlice
  creds : Option MicrokubeCredentials
  execEnv : Option ExecutionEnvironment
  err : error
deriving DecidableEq, Repr

/-! ## `StartHandlerForTest` -/

/-- The three calls of one pass of the health loop on `handler`, for the check
numbered `i`. -/
def probeAttempt (W : World) (handler : ServiceHandler) (i : Nat) : List Event :=
  [Event.EnableHealthChecks handler false, Event.Receive (W.health handler i), Event.Sleep 1]

/-- The loop `for i := 0; i < healthCheckTries && (!msg.IsHealthy); i++` of
`StartHandlerForTest`.  The first argument is `healthCheckTries - i`, the number
of passes the counter still allows; the result is the last `msg` and the calls
made. -/
def healthLoop (W : World) (handler : ServiceHandler) :
    Nat → Nat → HealthMessage → HealthMessage × List Event
  | 0, _, msg => (msg, [])
  | remaining + 1, i, msg =>
    if msg.IsHealthy then (msg, [])
    else
      let next := healthLoop W handler remaining (i + 1) (W.health handler i)
      (next.1, probeAttempt W handler i ++ next.2)

/-- The expression `handlerList[len(handlerList)-1]`; `none` is the index panic. -/
def lastHandler : HandlerSlice → Option ServiceHandler
  | none => none
  | some l => l.getLast?

/-- The function `StartHandlerForTest`.  The first component is `none` when the
call panics; the second lists the calls made.  In the format strings `\x27` is
the apostrophe.  The result of `CreateOrLoadCertificates` other than the filled
bundle is dropped, as in the source. -/
def StartHandlerForTest (W : World) (portbase : Int) (name binary : String)
    (constructor : UUTConstrutor) (exitHandler : ExitHandler) (print : Bool)
    (healthCheckTries : Int) (credsArg : Option MicrokubeCredentials)
    (execEnvArg : Option ExecutionEnvironment) : Option StartResult × List Event :=
  let tmp := W.TempDir ("microkube-unittests-" ++ name)
  let t0 := [Event.TempDir ("microkube-unittests-" ++ name)]
  match tmp.2 with
  | some err => (some ⟨none, none, none, some err⟩, t0)
  | none =>
    let tmpdir := tmp.1
    let outputHandler : OutputHandler := ⟨print, name⟩
    let creds : MicrokubeCredentials :=
      match credsArg with
      | none => (W.CreateOrLoadCertificates tmpdir).1
      | some c => c
    let t1 : List Event :=
      match credsArg with
      | none => t0 ++ [Event.CreateOrLoadCertificates tmpdir]
      | some _ => t0
    let found := W.FindBinary binary
    let t2 := t1 ++ [Event.FindBinary binary]
    match found.2 with
    | some err =>
      (some ⟨none, none, none, some (Errorf W.fmtOther
        ("error while searching for " ++ name ++ " binary: \x27%s\x27") (some err))⟩, t2)
    | none =>
      let execEnv0 : ExecutionEnvironment :=
        ⟨found.1, "127.0.0.1", outputHandler, exitHandler, tmpdir, "sudo", "8.8.8.8", 0, []⟩
      let execEnv : ExecutionEnvironment :=
        match execEnvArg with
        | none => W.InitPorts execEnv0 portbase
        | some base => W.CopyInformationFromBase execEnv0 base
      let built := constructor execEnv (some creds)
      let t3 := t2 ++ built.2
      match built.1 with
      | none => (none, t3)
      | some (_, some err) =>
        (some ⟨none, none, none, some (Errorf W.fmtOther
          (name ++ " handler creation failed: \x27%s\x27") (some err))⟩, t3)
      | some (handlerList, none) =>
        match lastHandler handlerList with
        | none => (none, t3)
        | some handler =>
          let t4 := t3 ++ [Event.Start handler]
          match W.Start handler with
          | some err =>
            (some ⟨none, none, none, some (Errorf W.fmtOther
              (name ++ " startup failed: \x27%s\x27") (some err))⟩, t4)
          | none =>
            let looped := healthLoop W handler healthCheckTries.toNat 0 ⟨false, none⟩
            if !looped.1.IsHealthy then
              (some ⟨none, none, none, some (Errorf W.fmtOther
                (name ++ " unhealthy: %s") looped.1.Error)⟩, t4 ++ looped.2)
            else
              (some ⟨handlerList, some creds, some execEnv, none⟩, t4 ++ looped.2)

/-- The calls of the health checks numbered `i`, ..., `i + n - 1` on `handler`:
`n` probe attempts, each an `EnableHealthChecks(healthMessage, false)`, one
receive and one sleep of a second. -/
def attempts (W : World) (handler : ServiceHandler) : Nat → Nat → List Event
  | _, 0 => []
  | i, n + 1 => probeAttempt W handler i ++ attempts W handler (i + 1) n

/-- The credential bundle that `StartHandlerForTest` hands to the constructor. -/
def credsUsed (W : World) (name : String) (credsArg : Option MicrokubeCredentials) :
    MicrokubeCredentials :=
  match credsArg with
  | none => (W.CreateOrLoadCertificates (W.TempDir ("microkube-unittests-" ++ name)).1).1
  | some c => c

/-- The execution environment that `StartHandlerForTest` hands to the constructor. -/
def execEnvUsed (W : World) (portbase : Int) (name binary : String) (exitHandler : ExitHandler)
    (print : Bool) (execEnvArg : Option ExecutionEnvironment) : ExecutionEnvironment :=
  match execEnvArg with
  | none =>
    W.InitPorts ⟨(W.FindBinary binary).1, "127.0.0.1", ⟨print, name⟩, exitHandler,
      (W.TempDir ("microkube-unittests-" ++ name)).1, "sudo", "8.8.8.8", 0, []⟩ portbase
  | some base =>
    W.CopyInformationFromBase ⟨(W.FindBinary binary).1, "127.0.0.1", ⟨print, name⟩, exitHandler,
      (W.TempDir ("microkube-unittests-" ++ name)).1, "sudo", "8.8.8.8", 0, []⟩ base

/-- The calls that `StartHandlerForTest` makes before it calls the constructor. -/
def setupCalls (W : World) (name binary : String) (credsArg : Option MicrokubeCredentials) :
    List Event :=
  match credsArg with
  | none =>
    [Event.TempDir ("microkube-unittests-" ++ name),
      Event.CreateOrLoadCertificates (W.TempDir ("microkube-unittests-" ++ name)).1,
      Event.FindBinary binary]
  | some _ => [Event.TempDir ("microkube-unittests-" ++ name), Event.FindBinary binary]

/-! ## Construction of the scheduler handler -/

/-- The function `NewKubeSchedulerHandler`.  `creds` is a pointer; reading
`creds.Kubeconfig` through nil panics (`none`).  `Except.ok h` is the return
`obj, nil` and `Except.error err` the return `nil, err`. -/
def NewKubeSchedulerHandler (W : World) (execEnv : ExecutionEnvironment)
    (creds : Option MicrokubeCredentials) :
    Option (Except String KubeSchedulerHandler) × List Event :=
  match creds with
  | none => (none, [])
  | some c =>
    let config := W.pathJoin execEnv.Workdir "kube-scheduler.cfg"
    let t0 := [Event.CreateKubeSchedulerConfig config]
    match W.CreateKubeSchedulerConfig config c.Kubeconfig execEnv with
    | some err => (some (Except.error err), t0)
    | none =>
      let url := "http://localhost:" ++ toString execEnv.KubeSchedulerHealthPort ++ "/healthz"
      (some (Except.ok ⟨⟨execEnv.ExitHandler, url⟩, none, execEnv.Binary, c.Kubeconfig, config,
        execEnv.OutputHandler⟩), t0 ++ [Event.NewHandler url])

/-- The function `kubeSchedulerConstructor`. -/
def kubeSchedulerConstructor (W : World) : UUTConstrutor := fun execEnv creds =>
  let started := StartHandlerForTest W (-1) "kube-apiserver" "hyperkube"
    W.kubeApiServerConstructor execEnv.ExitHandler false 30 creds (some execEnv)
  match started.1 with
  | none => (none, started.2)
  | some res =>
    match res.err with
    | some err =>
      (some (res.handlerList, some (Errorf W.fmtOther
        "kube-apiserver startup prereq failed %s" (some err))), started.2)
    | none =>
      let tmp := W.TempDir "microkube-unittests-kubeconfig"
      let t1 := started.2 ++ [Event.TempDir "microkube-unittests-kubeconfig"]
      match tmp.2 with
      | some err =>
        (some (res.handlerList, some (Errorf W.fmtOther
          "tempdir creation failed: %s" (some err))), t1)
      | none =>
        let kubeconfig := W.pathJoin tmp.1 "kubeconfig"
        let t2 := t1 ++ [Event.CreateClientKubeconfig kubeconfig]
        match W.CreateClientKubeconfig execEnv creds kubeconfig "127.0.0.1" with
        | some err =>
          (some (res.handlerList, some (Errorf W.fmtOther
            "kubeconfig creation failed: %s" (some err))), t2)
        | none =>
          let made := NewKubeSchedulerHandler W execEnv creds
          let t3 := t2 ++ made.2
          match made.1 with
          | none => (none, t3)
          | some (Except.error err) =>
            (some (res.handlerList, some (Errorf W.fmtOther
              "kube scheduler handler creation failed: %s" (some err))), t3)
          | some (Except.ok handler) =>
            (some (some (res.handlerList.getD [] ++ [ServiceHandler.kubeScheduler handler]),
              none), t3)

/-- The bring-up of the prerequisite with which `kubeSchedulerConstructor` begins:
its call of `helpers.StartHandlerForTest` for the kube-apiserver. -/
def apiServerBringUp (W : World) (execEnv : ExecutionEnvironment)
    (creds : Option MicrokubeCredentials) : Option StartResult × List Event :=
  StartHandlerForTest W (-1) "kube-apiserver" "hyperkube" W.kubeApiServerConstructor
    execEnv.ExitHandler false 30 creds (some execEnv)

/-! ## `KubeSchedulerHandler.Start` and `KubeSchedulerHandler.stop` -/

/-- Life of the child process of one `helpers.CmdHandler`. -/
inductive RunnerState where
  | created
  | running
  | stopped
deriving DecidableEq, Repr

/-- A `helpers.CmdHandler` as `helpers.NewCmdHandler` builds it from the binary,
the argument vector and the output handler (the exit callback is the
`HandleExit` method of the handler that built it). -/
structure CmdHandler where
  binary : String
  args : List String
  out : OutputHandler
  state : RunnerState
deriving DecidableEq, Repr

/-- Modelled from the spec: `helpers.NewCmdHandler`, whose source is not among
the files; the ProcessRunner of the specification owns one child process and
has none before `Start`. -/
def NewCmdHandler (binary : String) (args : List String) (out : OutputHandler) : CmdHandler :=
  ⟨binary, args, out, RunnerState.created⟩

/-- Modelled from the spec: `CmdHandler.Start`, whose source is not among the
files.  "Start fails with a LaunchError if the binary cannot be executed or if
Start is called on an already-running instance"; `launch` is the result of
executing the binary. -/
def CmdHandler.Start (c : CmdHandler) (launch : error) : CmdHandler × error :=
  match c.state with
  | RunnerState.running => (c, some "already running")
  | _ =>
    match launch with
    | some err => (c, some err)
    | none => (⟨c.binary, c.args, c.out, RunnerState.running⟩, none)

/-- Modelled from the spec: `CmdHandler.Stop`, whose source is not among the
files.  "Stop sends a termination signal, then blocks until the process has
actually exited"; a runner without a running process is left as it is. -/
def CmdHandler.Stop (c : CmdHandler) : CmdHandler :=
  match c.state with
  | RunnerState.running => ⟨c.binary, c.args, c.out, RunnerState.stopped⟩
  | _ => c

/-- Method calls that a handler makes on its `CmdHandler`s. -/
inductive RunnerCall where
  | Start (runner : Nat)
  | Stop (runner : Nat)
deriving DecidableEq, Repr

/-- One scheduler handler with the heap of `CmdHandler`s it has allocated (the
position in `runners` is the pointer) and the calls it has made on them. -/
structure HandlerState where
  handler : KubeSchedulerHandler
  runners : List CmdHandler
  calls : List RunnerCall
deriving DecidableEq, Repr

/-- The method `stop` of `KubeSchedulerHandler`. -/
def KubeSchedulerHandler.stop (s : HandlerState) : HandlerState :=
  match s.handler.cmd with
  | none => s
  | some r => ⟨s.handler, s.runners.modify CmdHandler.Stop r, s.calls ++ [RunnerCall.Stop r]⟩

/-- The method `Start` of `KubeSchedulerHandler`; `launch` is the result of
executing the binary.  The new `CmdHandler` is stored in `cmd` before it is
started. -/
def KubeSchedulerHandler.Start (s : HandlerState) (launch : error) : HandlerState × error :=
  let fresh := NewCmdHandler s.handler.binary ["kube-scheduler", "--config", s.handler.config]
    s.handler.out
  let r := s.runners.length
  let started := fresh.Start launch
  (⟨⟨s.handler.BaseServiceHandler, some r, s.handler.binary, s.handler.kubeconfig,
      s.handler.config, s.handler.out⟩,
    s.runners ++ [started.1], s.calls ++ [RunnerCall.Start r]⟩, started.2)

/-- A call on a handler from outside: `Start()`, with the result of executing
the binary, or `stop()`. -/
inductive HandlerCall where
  | Start (launch : error)
  | stop
deriving DecidableEq, Repr

/-- The handler after a sequence of `Start` and `stop` calls. -/
def runCalls : HandlerState → List HandlerCall → HandlerState
  | s, [] => s
  | s, HandlerCall.Start launch :: rest => runCalls (KubeSchedulerHandler.Start s launch).1 rest
  | s, HandlerCall.stop :: rest => runCalls (KubeSchedulerHandler.stop s) rest

/-- Runner `r` is live: started and not yet stopped. -/
def live (s : HandlerState) (r : Nat) : Bool :=
  s.runners[r]?.map CmdHandler.state = some RunnerState.running

/-- The runners that are live, by position. -/
def liveRunners (s : HandlerState) : List Nat :=
  (List.range s.runners.length).filter (live s)

/-- No `Start` is called while a runner is live: along `calls`, run from the
state `s`, every `Start` finds the list of live runners empty. -/
def noStartWhileLive : HandlerState → List HandlerCall → Bool
  | _, [] => true
  | s, HandlerCall.stop :: rest => noStartWhileLive (KubeSchedulerHandler.stop s) rest
  | s, HandlerCall.Start launch :: rest =>
    (liveRunners s).isEmpty && noStartWhileLive (KubeSchedulerHandler.Start s launch).1 rest

/-- A handler as `NewKubeSchedulerHandler` returns it (`cmd` nil), with no
`CmdHandler` allocated and no call made. -/
def freshState (h : KubeSchedulerHandler) : HandlerState :=
  ⟨⟨h.BaseServiceHandler, none, h.binary, h.kubeconfig, h.config, h.out⟩, [], []⟩

/-- Invariant of a sequence of `Start` and `stop` calls: a live runner is the
one `cmd` refers to. -/
def runnerInvariant (s : HandlerState) : Prop :=
  ∀ r, live s r = true → s.handler.cmd = some r

/-! ## `ManifestCodegen.parseDoc` -/

/-- A container of a pod template: whether `LivenessProbe` is non-nil. -/
structure Container where
  name : String
  LivenessProbe : Bool
deriving DecidableEq, Repr

/-- A decoded `runtime.Object`, by the two type assertions of `parseDoc`: an
`appsv1.Deployment`, an `extensionsv1beta1.Deployment` (each with the containers of
`Spec.Template.Spec.Containers`), or an object of another type. -/
inductive Object where
  | appsv1Deployment (containers : List Container)
  | extensionsv1beta1Deployment (containers : List Container)
  | other (kind : String)
deriving DecidableEq, Repr

/-- The type `fileEntry`; `gv` is the group and version as text. -/
structure fileEntry where
  obj : Object
  gv : String
  name : String
deriving DecidableEq, Repr

/-- The fields of `ManifestCodegen` that `parseDoc` reads and writes. -/
structure ManifestCodegen where
  entries : List fileEntry
  hasHealthCheck : Bool
  name : String
deriving DecidableEq, Repr

/-- The loop over the containers of a deployment in `parseDoc`: `healthObj` is
appended, and `hasHealthCheck` set, for each container with a liveness probe. -/
def appendHealthObjs (healthObj : fileEntry) : ManifestCodegen → List Container → ManifestCodegen
  | m, [] => m
  | m, container :: rest =>
    if container.LivenessProbe then
      appendHealthObjs healthObj ⟨m.entries ++ [healthObj], true, m.name⟩ rest
    else appendHealthObjs healthObj m rest

/-- The method `parseDoc`.  `decodeFun` is the universal deserializer: the
decoded object with its group and version, or the decoding error. -/
def parseDoc (decodeFun : String → Except String (Object × String)) (m : ManifestCodegen)
    (doc : String) : ManifestCodegen × error :=
  match decodeFun doc with
  | Except.error err => (m, some err)
  | Except.ok (obj, gv) =>
    let m1 : ManifestCodegen :=
      ⟨m.entries ++ [⟨obj, gv, "kobjS" ++ m.name ++ "O" ++ toString m.entries.length⟩],
        m.hasHealthCheck, m.name⟩
    let healthObj : fileEntry := ⟨obj, gv, "kobjS" ++ m.name ++ "HO"⟩
    let m2 : ManifestCodegen :=
      match obj with
      | Object.appsv1Deployment containers => appendHealthObjs healthObj m1 containers
      | _ => m1
    let m3 : ManifestCodegen :=
      match obj with
      | Object.extensionsv1beta1Deployment containers => appendHealthObjs healthObj m2 containers
      | _ => m2
    (m3, none)

/-- The loop of `ParseFile` over the documents: `parseDoc` on each, stopping at
the first error. -/
def parseDocs (decodeFun : String → Except String (Object × String)) :
    ManifestCodegen → List String → ManifestCodegen × error
  | m, [] => (m, none)
  | m, doc :: rest =>
    match (parseDoc decodeFun m doc).2 with
    | some err => ((parseDoc decodeFun m doc).1, some err)
    | none => parseDocs decodeFun (parseDoc decodeFun m doc).1 rest

/-- The constants that the first loop of `writeFile` declares, one
`const <name> = ...` for each entry in order. -/
def declaredConstants (m : ManifestCodegen) : List String :=
  m.entries.map (fun entry => "const " ++ entry.name)

/-! ## Sample inputs -/

/-- A world in which every setup call succeeds, the kube-apiserver constructor
returns the etcd and kube-apiserver handlers after one call of its own, every
`Start` succeeds, and every handler answers its health checks with "connection
refused" until the check numbered `healthyFrom` and is healthy from then on
(`none`: never healthy). -/
def sampleWorld (healthyFrom : Option Nat) : World where
  fmtOther := fun _ _ => []
  pathJoin := fun dir file => dir ++ "/" ++ file
  TempDir := fun pattern => ("/tmp/" ++ pattern, none)
  CreateOrLoadCertificates := fun dir => (⟨dir ++ "/kubeconfig"⟩, none)
  FindBinary := fun binary => ("/opt/" ++ binary, none)
  InitPorts := fun env portbase =>
    ⟨env.Binary, env.ListenAddress, env.OutputHandler, env.ExitHandler, env.Workdir,
      env.SudoMethod, env.DNSAddress, portbase + 7, [portbase]⟩
  CopyInformationFromBase := fun env base =>
    ⟨env.Binary, base.ListenAddress, env.OutputHandler, env.ExitHandler, env.Workdir,
      base.SudoMethod, base.DNSAddress, base.KubeSchedulerHealthPort, base.otherPorts⟩
  Start := fun _ => none
  health := fun _ k =>
    match healthyFrom with
    | none => ⟨false, some "connection refused"⟩
    | some j => if j ≤ k then ⟨true, none⟩ else ⟨false, some "connection refused"⟩
  kubeApiServerConstructor := fun _ _ =>
    (some (some [ServiceHandler.other "etcd", ServiceHandler.other "kube-apiserver"], none),
      [Event.Start (ServiceHandler.other "etcd")])
  CreateClientKubeconfig := fun _ _ _ _ => none
  CreateKubeSchedulerConfig := fun _ _ _ => none

/-- A constructor that returns the single handler `etcd` and makes no call. -/
def sampleConstructor : UUTConstrutor := fun _ _ =>
  (some (some [ServiceHandler.other "etcd"], none), [])

/-- The sample world with a credential creation that fails. -/
def failingCertsWorld : World :=
  { sampleWorld (some 0) with
    CreateOrLoadCertificates := fun _ => (⟨""⟩, some "permission denied") }

/-- The sample world with handlers that fail to start. -/
def failingStartWorld : World :=
  { sampleWorld (some 0) with Start := fun _ => some "exec format error" }

/-- A constructor that fails with the error `boom`. -/
def failingConstructor : UUTConstrutor := fun _ _ => (some (none, some "boom"), [])

/-- The execution environment handed to `kubeSchedulerConstructor` in the samples. -/
def sampleEnv : ExecutionEnvironment :=
  ⟨"/opt/hyperkube", "127.0.0.1", ⟨false, "kube-scheduler"⟩, 0, "/tmp/work", "sudo", "8.8.8.8",
    10251, []⟩

/-- A scheduler handler as `NewKubeSchedulerHandler` builds it from `sampleEnv`. -/
def sampleHandler : KubeSchedulerHandler :=
  ⟨⟨0, "http://localhost:10251/healthz"⟩, none, "/opt/hyperkube", "/k",
    "/tmp/work/kube-scheduler.cfg", ⟨false, "kube-scheduler"⟩⟩

/-- A deserializer that decodes the document `kube-dns` to an `appsv1.Deployment`
with three containers, each with a liveness probe, and rejects every other
document. -/
def sampleDecode (doc : String) : Except String (Object × String) :=
  if doc = "kube-dns" then
    Except.ok (Object.appsv1Deployment
      [⟨"kubedns", true⟩, ⟨"dnsmasq", true⟩, ⟨"sidecar", true⟩], "apps/v1")
  else Except.error "no kind"

/-! ## Theorems -/
/-! ### Formatting -/

theorem Sprintf_literal (f : List Char → List error → List Char) (rest : List Char)
    (args : List error) :
    ∀ lit : List Char, '%' ∉ lit → Sprintf f (lit ++ rest) args = lit ++ Sprintf f rest args := by
  intro lit
  induction lit with
  | nil => intro _; rfl
  | cons c cs ih =>
    intro h
    have hc : c ≠ '%' := fun e => h (by simp [e])
    have hcs : '%' ∉ cs := fun e => h (by simp [e])
    rw [List.cons_append, Sprintf.eq_def]
    simp only [if_neg hc, ih hcs, List.cons_append]

theorem Errorf_literal (f : List Char → List error → List Char) (pre : String) (a : error)
    (h : '%' ∉ pre.data) :
    Errorf f (pre ++ "%s") a = pre ++ String.mk (verbS a) := by
  apply String.ext
  simp only [Errorf, String.data_append]
  rw [Sprintf_literal f _ _ _ h]
  simp [Sprintf]

theorem Errorf_literal_quoted (f : List Char → List error → List Char) (pre : String) (a : error)
    (h : '%' ∉ pre.data) :
    Errorf f (pre ++ "\x27%s\x27") a = pre ++ "\x27" ++ String.mk (verbS a) ++ "\x27" := by
  apply String.ext
  simp only [Errorf, String.data_append]
  rw [Sprintf_literal f _ _ _ h]
  simp [Sprintf]


/-! ### `StartHandlerForTest` up to the health loop -/

theorem StartHandlerForTest_after_start (W : World) (portbase : Int) (name binary : String)
    (constructor : UUTConstrutor) (exitHandler : ExitHandler) (print : Bool)
    (healthCheckTries : Int) (credsArg : Option MicrokubeCredentials)
    (execEnvArg : Option ExecutionEnvironment) (handlerList : List ServiceHandler)
    (handler : ServiceHandler) (tc : List Event)
    (htmp : (W.TempDir ("microkube-unittests-" ++ name)).2 = none)
    (hbin : (W.FindBinary binary).2 = none)
    (hctor : constructor (execEnvUsed W portbase name binary exitHandler print execEnvArg)
      (some (credsUsed W name credsArg)) = (some (some handlerList, none), tc))
    (hlast : handlerList.getLast? = some handler)
    (hstart : W.Start handler = none) :
    StartHandlerForTest W portbase name binary constructor exitHandler print healthCheckTries
        credsArg execEnvArg =
      if !(healthLoop W handler healthCheckTries.toNat 0 ⟨false, none⟩).1.IsHealthy then
        (some ⟨none, none, none, some (Errorf W.fmtOther (name ++ " unhealthy: %s")
            (healthLoop W handler healthCheckTries.toNat 0 ⟨false, none⟩).1.Error)⟩,
          setupCalls W name binary credsArg ++ tc ++ [Event.Start handler] ++
            (healthLoop W handler healthCheckTries.toNat 0 ⟨false, none⟩).2)
      else
        (some ⟨some handlerList, some (credsUsed W name credsArg),
            some (execEnvUsed W portbase name binary exitHandler print execEnvArg), none⟩,
          setupCalls W name binary credsArg ++ tc ++ [Event.Start handler] ++
            (healthLoop W handler healthCheckTries.toNat 0 ⟨false, none⟩).2) := by
  unfold StartHandlerForTest
  simp only [htmp, hbin]
  cases credsArg <;> cases execEnvArg <;>
    simp only [credsUsed, execEnvUsed, setupCalls] at hctor ⊢ <;>
    simp only [hctor, lastHandler, hlast, hstart] <;>
    split <;> simp

/-! ### The health loop -/

theorem healthLoop_all_unhealthy (W : World) (handler : ServiceHandler) :
    ∀ (n i : Nat) (msg : HealthMessage), msg.IsHealthy = false →
      (∀ k, i ≤ k → k < i + n → (W.health handler k).IsHealthy = false) →
      healthLoop W handler n i msg =
        (if n = 0 then msg else W.health handler (i + n - 1), attempts W handler i n) := by
  intro n
  induction n with
  | zero => intro i msg _ _; simp [healthLoop, attempts]
  | succ n ih =>
    intro i msg hmsg hall
    have hi : (W.health handler i).IsHealthy = false := hall i (le_refl _) (by omega)
    have hrest := ih (i + 1) (W.health handler i) hi (fun k hk1 hk2 => hall k (by omega) (by omega))
    simp only [healthLoop, hmsg, hrest, attempts]
    by_cases hn : n = 0
    · subst hn; simp
    · have : i + 1 + n - 1 = i + (n + 1) - 1 := by omega
      simp [hn, this]

theorem healthLoop_first_healthy (W : World) (handler : ServiceHandler) :
    ∀ (j n i : Nat) (msg : HealthMessage), msg.IsHealthy = false → j < n →
      (∀ k, k < j → (W.health handler (i + k)).IsHealthy = false) →
      (W.health handler (i + j)).IsHealthy = true →
      healthLoop W handler n i msg = (W.health handler (i + j), attempts W handler i (j + 1)) := by
  intro j
  induction j with
  | zero =>
    intro n i msg hmsg hn _ hj
    obtain ⟨n, rfl⟩ : ∃ m, n = m + 1 := ⟨n - 1, by omega⟩
    cases n with
    | zero => simp [healthLoop, hmsg, attempts]
    | succ n => simp [healthLoop, hmsg, attempts, show (W.health handler i).IsHealthy = true from hj]
  | succ j ih =>
    intro n i msg hmsg hn hbefore hj
    obtain ⟨n, rfl⟩ : ∃ m, n = m + 1 := ⟨n - 1, by omega⟩
    have h0 : (W.health handler i).IsHealthy = false := by simpa using hbefore 0 (by omega)
    have hrest := ih n (i + 1) (W.health handler i) h0 (by omega)
      (fun k hk => by have := hbefore (k + 1) (by omega); rwa [show i + 1 + k = i + (k + 1) by omega])
      (by rwa [show i + 1 + j = i + (j + 1) by omega])
    have e : i + 1 + j = i + (j + 1) := by omega
    rw [e] at hrest
    simp only [healthLoop, hmsg, hrest]
    simp [attempts]

theorem healthLoop_healthy_inv (W : World) (handler : ServiceHandler) :
    ∀ (n i : Nat) (msg : HealthMessage), msg.IsHealthy = false →
      (healthLoop W handler n i msg).1.IsHealthy = true →
      ∃ j, j < n ∧ (W.health handler (i + j)).IsHealthy = true ∧
        (∀ k, k < j → (W.health handler (i + k)).IsHealthy = false) ∧
        healthLoop W handler n i msg =
          (W.health handler (i + j), attempts W handler i (j + 1)) := by
  intro n
  induction n with
  | zero => intro i msg hmsg h; simp [healthLoop, hmsg] at h
  | succ n ih =>
    intro i msg hmsg h
    by_cases h0 : (W.health handler i).IsHealthy = true
    · refine ⟨0, by omega, by simpa using h0, fun k hk => by omega, ?_⟩
      exact healthLoop_first_healthy W handler 0 (n + 1) i msg hmsg (by omega)
        (fun k hk => by omega) (by simpa using h0)
    · have h0f : (W.health handler i).IsHealthy = false := by simpa using h0
      simp only [healthLoop, hmsg] at h
      obtain ⟨j, hj, hjh, hbefore, _⟩ := ih (i + 1) (W.health handler i) h0f (by simpa using h)
      have e : i + 1 + j = i + (j + 1) := by omega
      refine ⟨j + 1, by omega, by rwa [← e], ?_, ?_⟩
      · intro k hk
        cases k with
        | zero => simpa using h0f
        | succ k =>
          have := hbefore k (by omega)
          rwa [show i + 1 + k = i + (k + 1) by omega] at this
      · exact healthLoop_first_healthy W handler (j + 1) (n + 1) i msg hmsg (by omega)
          (fun k hk => by
            cases k with
            | zero => simpa using h0f
            | succ k =>
              have := hbefore k (by omega)
              rwa [show i + 1 + k = i + (k + 1) by omega] at this)
          (by rwa [← e])

theorem attempts_succ (W : World) (handler : ServiceHandler) :
    ∀ (n i : Nat), attempts W handler i (n + 1) =
      attempts W handler i n ++ probeAttempt W handler (i + n) := by
  intro n
  induction n with
  | zero => intro i; simp [attempts]
  | succ n ih =>
    intro i
    rw [attempts, ih (i + 1), attempts, List.append_assoc,
      show i + 1 + n = i + (n + 1) by omega]


theorem dropWhile_cutset_ok (p : Char → Bool) (hp : p 'o' = false) (pre rest : List Char)
    (hpre : ∀ c ∈ pre, p c = true) :
    (pre ++ 'o' :: rest).dropWhile p = 'o' :: rest := by
  induction pre with
  | nil => simp [List.dropWhile, hp]
  | cons a as ih =>
    have ha : p a = true := hpre a (by simp)
    simp only [List.cons_append, List.dropWhile, ha]
    exact ih (fun c hc => hpre c (by simp [hc]))

theorem rdropWhile_cutset_ok (p : Char → Bool) (hp : p 'k' = false) (post : List Char)
    (hpost : ∀ c ∈ post, p c = true) :
    (['o', 'k'] ++ post).rdropWhile p = ['o', 'k'] := by
  induction post using List.reverseRecOn with
  | nil => simpa using List.rdropWhile_concat_neg (l := ['o']) p 'k' (by simp [hp])
  | append_singleton as a ih =>
    have ha : p a = true := hpost a (by simp)
    rw [← List.append_assoc, List.rdropWhile_concat_pos _ _ _ ha]
    exact ih (fun c hc => hpost c (by simp [hc]))

theorem rdropWhile_append_rtakeWhile (p : Char → Bool) (l : List Char) :
    l.rdropWhile p ++ l.rtakeWhile p = l := by
  simp only [List.rdropWhile, List.rtakeWhile, ← List.reverse_append,
    List.takeWhile_append_dropWhile, List.reverse_reverse]

theorem trim_eq_ok_iff (body : String) :
    Trim body " \r\n" = "ok" ↔
      ∃ pre post : List Char, body.data = pre ++ 'o' :: 'k' :: post ∧
        (∀ c ∈ pre, inCutset c = true) ∧ (∀ c ∈ post, inCutset c = true) := by
  constructor
  · intro h
    have hd : (body.data.dropWhile inCutset).rdropWhile inCutset = ['o', 'k'] := by
      exact congrArg String.data h
    refine ⟨body.data.takeWhile inCutset, (body.data.dropWhile inCutset).rtakeWhile inCutset,
      ?_, fun c hc => List.mem_takeWhile_imp hc, fun c hc => List.mem_rtakeWhile_imp hc⟩
    have h1 := rdropWhile_append_rtakeWhile inCutset (body.data.dropWhile inCutset)
    rw [hd] at h1
    have h2 := List.takeWhile_append_dropWhile inCutset body.data
    rw [← h1] at h2
    simpa using h2.symm
  · rintro ⟨pre, post, hbody, hpre, hpost⟩
    have h1 : body.data.dropWhile inCutset = 'o' :: ('k' :: post) := by
      rw [hbody]
      exact dropWhile_cutset_ok inCutset (by decide) pre _ hpre
    have h2 : ('o' :: 'k' :: post).rdropWhile inCutset = ['o', 'k'] :=
      rdropWhile_cutset_ok inCutset (by decide) post hpost
    have h3 : (Trim body " \r\n").data = ['o', 'k'] := by
      show (body.data.dropWhile inCutset).rdropWhile inCutset = _
      rw [h1, h2]
    exact String.ext h3

/-- C3 (as stated): `healthCheckFun` would accept a readable body exactly when the
body trimmed of white space is `ok`.  The body `ok` followed by a tab refutes
it: trimmed of white space it is `ok`, and `healthCheckFun` returns an error. -/
theorem C3_whitespace_counterexample :
    ¬ (healthCheckFun ("ok\t", none) = none ↔ trimWhitespace "ok\t" = "ok") := by
  decide

/-- C3 (amended): for a body read without error, `healthCheckFun` returns nil
exactly when the body is the text `ok` with only spaces, carriage returns and
line feeds before and after it; for every other body it returns a non-nil
error. -/
theorem C3_healthCheckFun_ok_iff (body : String) :
    (healthCheckFun (body, none) = none ↔
      ∃ pre post : List Char, body.data = pre ++ 'o' :: 'k' :: post ∧
        (∀ c ∈ pre, c = ' ' ∨ c = '\r' ∨ c = '\n') ∧
        (∀ c ∈ post, c = ' ' ∨ c = '\r' ∨ c = '\n')) ∧
    (healthCheckFun (body, none) ≠ none ↔
      healthCheckFun (body, none) = some ("Health != ok: " ++ body)) := by
  have hcut : ∀ c : Char, inCutset c = true ↔ (c = ' ' ∨ c = '\r' ∨ c = '\n') := by
    intro c
    simp [inCutset]
  have hiff : healthCheckFun (body, none) = none ↔ Trim body " \r\n" = "ok" := by
    unfold healthCheckFun
    by_cases h : Trim body " \r\n" = "ok" <;> simp [h]
  refine ⟨?_, ?_⟩
  · rw [hiff, trim_eq_ok_iff]
    simp only [hcut]
  · unfold healthCheckFun
    by_cases h : Trim body " \r\n" = "ok" <;> simp [h]

/-! ### C1, C2: the bounded health loop of `StartHandlerForTest` -/

/-- C1 (as stated): the failure text would be `name` followed by ` unhealthy: `
and the last health error for every name.  With the name `%%`, one try and a
handler that is never healthy, the text starts with a single percent sign:
`name` is part of the format string of `fmt.Errorf`. -/
theorem C1_percent_name_counterexample :
    (∀ k, ((sampleWorld none).health (ServiceHandler.other "etcd") k).IsHealthy = false) ∧
    (StartHandlerForTest (sampleWorld none) 100 "%%" "etcd" sampleConstructor 0 false 1
        none none).1 =
      some ⟨none, none, none, some "% unhealthy: connection refused"⟩ ∧
    "% unhealthy: connection refused" ≠ "%%" ++ " unhealthy: " ++ "connection refused" := by
  refine ⟨fun _ => rfl, by decide, by decide⟩

/-- C1 (amended): for every name, `healthCheckTries >= 1` and a leaf handler whose
single-shot health checks are all unhealthy, once the constructor and `Start`
have succeeded `StartHandlerForTest` makes exactly `healthCheckTries` probe
attempts (each `EnableHealthChecks(ch, false)`, a receive and a sleep of one
second) and returns nil handler list, credentials and environment with the
non-nil error that `fmt.Errorf` renders from the format `name` followed by
` unhealthy: %s` and the error of the last health message; for a name without
a percent sign its text is `name`, ` unhealthy: ` and that error. -/
theorem C1_unhealthy_after_all_tries (W : World) (portbase : Int) (name binary : String)
    (constructor : UUTConstrutor) (exitHandler : ExitHandler) (print : Bool)
    (healthCheckTries : Int) (credsArg : Option MicrokubeCredentials)
    (execEnvArg : Option ExecutionEnvironment) (handlerList : List ServiceHandler)
    (handler : ServiceHandler) (tc : List Event)
    (hN : 1 ≤ healthCheckTries)
    (htmp : (W.TempDir ("microkube-unittests-" ++ name)).2 = none)
    (hbin : (W.FindBinary binary).2 = none)
    (hctor : constructor (execEnvUsed W portbase name binary exitHandler print execEnvArg)
      (some (credsUsed W name credsArg)) = (some (some handlerList, none), tc))
    (hlast : handlerList.getLast? = some handler)
    (hstart : W.Start handler = none)
    (hunhealthy : ∀ k, (W.health handler k).IsHealthy = false) :
    StartHandlerForTest W portbase name binary constructor exitHandler print healthCheckTries
        credsArg execEnvArg =
      (some ⟨none, none, none, some (Errorf W.fmtOther (name ++ " unhealthy: %s")
          (W.health handler (healthCheckTries.toNat - 1)).Error)⟩,
        setupCalls W name binary credsArg ++ tc ++ [Event.Start handler] ++
          attempts W handler 0 healthCheckTries.toNat) ∧
    ('%' ∉ name.data →
      Errorf W.fmtOther (name ++ " unhealthy: %s")
          (W.health handler (healthCheckTries.toNat - 1)).Error =
        name ++ " unhealthy: " ++
          String.mk (verbS (W.health handler (healthCheckTries.toNat - 1)).Error)) := by
  have hn : healthCheckTries.toNat ≠ 0 := by omega
  have hloop := healthLoop_all_unhealthy W handler healthCheckTries.toNat 0 ⟨false, none⟩ rfl
    (fun k _ _ => hunhealthy k)
  rw [if_neg hn, Nat.zero_add] at hloop
  refine ⟨?_, ?_⟩
  · rw [StartHandlerForTest_after_start W portbase name binary constructor exitHandler print
      healthCheckTries credsArg execEnvArg handlerList handler tc htmp hbin hctor hlast hstart,
      hloop]
    simp [hunhealthy]
  · intro hname
    have h := Errorf_literal W.fmtOther (name ++ " unhealthy: ")
      (W.health handler (healthCheckTries.toNat - 1)).Error
      (by
        simp only [String.data_append, List.mem_append, not_or]
        exact ⟨hname, by decide⟩)
    rw [← h, String.append_assoc]
    rfl

/-- C1 (witness): three tries on the never healthy sample world, with the
percent-free name `etcd`. -/
theorem C1_unhealthy_after_all_tries_witness :
    StartHandlerForTest (sampleWorld none) 100 "etcd" "etcd" sampleConstructor 0 false 3
        none none =
      (some ⟨none, none, none, some "etcd unhealthy: connection refused"⟩,
        [Event.TempDir "microkube-unittests-etcd",
          Event.CreateOrLoadCertificates "/tmp/microkube-unittests-etcd",
          Event.FindBinary "etcd",
          Event.Start (ServiceHandler.other "etcd"),
          Event.EnableHealthChecks (ServiceHandler.other "etcd") false,
          Event.Receive ⟨false, some "connection refused"⟩, Event.Sleep 1,
          Event.EnableHealthChecks (ServiceHandler.other "etcd") false,
          Event.Receive ⟨false, some "connection refused"⟩, Event.Sleep 1,
          Event.EnableHealthChecks (ServiceHandler.other "etcd") false,
          Event.Receive ⟨false, some "connection refused"⟩, Event.Sleep 1]) := by
  have h := C1_unhealthy_after_all_tries (sampleWorld none) 100 "etcd" "etcd" sampleConstructor
    0 false 3 none none [ServiceHandler.other "etcd"] (ServiceHandler.other "etcd") []
    (by decide) rfl rfl rfl rfl rfl (fun _ => rfl)
  rw [h.1, h.2 (by decide)]
  rfl

/-- C2: when the first healthy message is that of the `k`-th check, with
`1 <= k <= healthCheckTries`, then once the constructor and `Start` have
succeeded `StartHandlerForTest` makes exactly `k` probe attempts, none after
the `k`-th, and returns a nil error with the handler list of the constructor. -/
theorem C2_healthy_at_kth_try (W : World) (portbase : Int) (name binary : String)
    (constructor : UUTConstrutor) (exitHandler : ExitHandler) (print : Bool)
    (healthCheckTries : Int) (credsArg : Option MicrokubeCredentials)
    (execEnvArg : Option ExecutionEnvironment) (handlerList : List ServiceHandler)
    (handler : ServiceHandler) (tc : List Event) (k : Nat)
    (hk1 : 1 ≤ k) (hkN : (k : Int) ≤ healthCheckTries)
    (htmp : (W.TempDir ("microkube-unittests-" ++ name)).2 = none)
    (hbin : (W.FindBinary binary).2 = none)
    (hctor : constructor (execEnvUsed W portbase name binary exitHandler print execEnvArg)
      (some (credsUsed W name credsArg)) = (some (some handlerList, none), tc))
    (hlast : handlerList.getLast? = some handler)
    (hstart : W.Start handler = none)
    (hbefore : ∀ j, j + 1 < k → (W.health handler j).IsHealthy = false)
    (hkth : (W.health handler (k - 1)).IsHealthy = true) :
    StartHandlerForTest W portbase name binary constructor exitHandler print healthCheckTries
        credsArg execEnvArg =
      (some ⟨some handlerList, some (credsUsed W name credsArg),
          some (execEnvUsed W portbase name binary exitHandler print execEnvArg), none⟩,
        setupCalls W name binary credsArg ++ tc ++ [Event.Start handler] ++
          attempts W handler 0 k) := by
  obtain ⟨j, rfl⟩ : ∃ j, k = j + 1 := ⟨k - 1, by omega⟩
  have hloop := healthLoop_first_healthy W handler j healthCheckTries.toNat 0 ⟨false, none⟩ rfl
    (by omega) (fun i hi => by simpa using hbefore i (by omega)) (by simpa using hkth)
  rw [Nat.zero_add] at hloop
  rw [StartHandlerForTest_after_start W portbase name binary constructor exitHandler print
    healthCheckTries credsArg execEnvArg handlerList handler tc htmp hbin hctor hlast hstart,
    hloop]
  have : (W.health handler j).IsHealthy = true := by simpa using hkth
  simp [this]

/-- C2 (witness): five tries allowed, healthy at the third check: three probe
attempts and no fourth or fifth. -/
theorem C2_healthy_at_kth_try_witness :
    StartHandlerForTest (sampleWorld (some 2)) 100 "etcd" "etcd" sampleConstructor 0 false 5
        none none =
      (some ⟨some [ServiceHandler.other "etcd"],
          some ⟨"/tmp/microkube-unittests-etcd/kubeconfig"⟩,
          some ⟨"/opt/etcd", "127.0.0.1", ⟨false, "etcd"⟩, 0, "/tmp/microkube-unittests-etcd",
            "sudo", "8.8.8.8", 107, [100]⟩, none⟩,
        [Event.TempDir "microkube-unittests-etcd",
          Event.CreateOrLoadCertificates "/tmp/microkube-unittests-etcd",
          Event.FindBinary "etcd",
          Event.Start (ServiceHandler.other "etcd"),
          Event.EnableHealthChecks (ServiceHandler.other "etcd") false,
          Event.Receive ⟨false, some "connection refused"⟩, Event.Sleep 1,
          Event.EnableHealthChecks (ServiceHandler.other "etcd") false,
          Event.Receive ⟨false, some "connection refused"⟩, Event.Sleep 1,
          Event.EnableHealthChecks (ServiceHandler.other "etcd") false,
          Event.Receive ⟨true, none⟩, Event.Sleep 1]) :=
  C2_healthy_at_kth_try (sampleWorld (some 2)) 100 "etcd" "etcd" sampleConstructor 0 false 5
    none none [ServiceHandler.other "etcd"] (ServiceHandler.other "etcd") [] 3
    (by decide) (by decide) rfl rfl rfl rfl rfl
    (fun j hj => by
      have : j = 0 ∨ j = 1 := by omega
      rcases this with rfl | rfl <;> rfl)
    rfl

/-! ### C4: a nil error needs a healthy message -/

theorem StartHandlerForTest_nil_error_inv (W : World) (portbase : Int) (name binary : String)
    (constructor : UUTConstrutor) (exitHandler : ExitHandler) (print : Bool)
    (healthCheckTries : Int) (credsArg : Option MicrokubeCredentials)
    (execEnvArg : Option ExecutionEnvironment) (res : StartResult) (trace : List Event)
    (hrun : StartHandlerForTest W portbase name binary constructor exitHandler print
      healthCheckTries credsArg execEnvArg = (some res, trace))
    (hnil : res.err = none) :
    ∃ (handlerList : List ServiceHandler) (handler : ServiceHandler) (tc : List Event) (j : Nat),
      constructor (execEnvUsed W portbase name binary exitHandler print execEnvArg)
        (some (credsUsed W name credsArg)) = (some (some handlerList, none), tc) ∧
      handlerList.getLast? = some handler ∧
      W.Start handler = none ∧
      (j : Int) < healthCheckTries ∧
      (W.health handler j).IsHealthy = true ∧
      res = ⟨some handlerList, some (credsUsed W name credsArg),
        some (execEnvUsed W portbase name binary exitHandler print execEnvArg), none⟩ ∧
      trace = setupCalls W name binary credsArg ++ tc ++ [Event.Start handler] ++
        attempts W handler 0 (j + 1) := by
  rcases htmp : (W.TempDir ("microkube-unittests-" ++ name)).2 with _ | e
  swap
  · unfold StartHandlerForTest at hrun
    simp only [htmp, Prod.mk.injEq, Option.some.injEq] at hrun
    rw [← hrun.1] at hnil
    simp at hnil
  rcases hbin : (W.FindBinary binary).2 with _ | e
  swap
  · unfold StartHandlerForTest at hrun
    simp only [htmp, hbin, Prod.mk.injEq, Option.some.injEq] at hrun
    rw [← hrun.1] at hnil
    simp at hnil
  rcases hctor : constructor (execEnvUsed W portbase name binary exitHandler print execEnvArg)
    (some (credsUsed W name credsArg)) with ⟨_ | ⟨hl, _ | e⟩, tc⟩
  · unfold StartHandlerForTest at hrun
    cases credsArg <;> cases execEnvArg <;>
      simp only [credsUsed, execEnvUsed] at hctor <;>
      simp [htmp, hbin, hctor] at hrun
  swap
  · unfold StartHandlerForTest at hrun
    cases credsArg <;> cases execEnvArg <;>
      simp only [credsUsed, execEnvUsed] at hctor <;>
      simp only [htmp, hbin, hctor, Prod.mk.injEq, Option.some.injEq] at hrun <;>
      (rw [← hrun.1] at hnil; simp at hnil)
  rcases hlast : lastHandler hl with _ | handler
  · unfold StartHandlerForTest at hrun
    cases credsArg <;> cases execEnvArg <;>
      simp only [credsUsed, execEnvUsed] at hctor <;>
      simp [htmp, hbin, hctor, hlast] at hrun
  rcases hstart : W.Start handler with _ | e
  swap
  · unfold StartHandlerForTest at hrun
    cases credsArg <;> cases execEnvArg <;>
      simp only [credsUsed, execEnvUsed] at hctor <;>
      simp only [htmp, hbin, hctor, hlast, hstart, Prod.mk.injEq, Option.some.injEq] at hrun <;>
      (rw [← hrun.1] at hnil; simp at hnil)
  obtain ⟨l, rfl⟩ : ∃ l, hl = some l := by
    cases hl with
    | none => simp [lastHandler] at hlast
    | some l => exact ⟨l, rfl⟩
  have hlast2 : l.getLast? = some handler := hlast
  rw [StartHandlerForTest_after_start W portbase name binary constructor exitHandler print
    healthCheckTries credsArg execEnvArg l handler tc htmp hbin hctor hlast2 hstart] at hrun
  by_cases hh : (healthLoop W handler healthCheckTries.toNat 0 ⟨false, none⟩).1.IsHealthy = true
  · obtain ⟨j, hj, hjh, _, hloop⟩ :=
      healthLoop_healthy_inv W handler healthCheckTries.toNat 0 ⟨false, none⟩ rfl hh
    rw [Nat.zero_add] at hjh hloop
    rw [hloop] at hrun
    simp only [hjh, Bool.not_true, Bool.false_eq_true, if_false, Prod.mk.injEq,
      Option.some.injEq] at hrun
    exact ⟨l, handler, tc, j, rfl, hlast2, hstart, by omega, hjh, hrun.1.symm, hrun.2.symm⟩
  · have hf : (healthLoop W handler healthCheckTries.toNat 0 ⟨false, none⟩).1.IsHealthy = false := by
      simpa using hh
    simp only [hf, Bool.not_false, if_true, Prod.mk.injEq, Option.some.injEq] at hrun
    rw [← hrun.1] at hnil
    simp at hnil

/-- C4: for every `healthCheckTries`, also zero and negative ones,
`StartHandlerForTest` returns a nil error only after it has started the last
handler of the list and received from it a health message with `IsHealthy`
true; and in every run of `kubeSchedulerConstructor` the calls after the
kube-apiserver bring-up, among them those that construct the scheduler handler,
are made only when that bring-up has started the kube-apiserver leaf handler and
received a healthy message from it. -/
theorem C4_nil_error_only_after_healthy (W : World) :
    (∀ (portbase : Int) (name binary : String) (constructor : UUTConstrutor)
      (exitHandler : ExitHandler) (print : Bool) (healthCheckTries : Int)
      (credsArg : Option MicrokubeCredentials) (execEnvArg : Option ExecutionEnvironment)
      (res : StartResult) (trace : List Event),
      StartHandlerForTest W portbase name binary constructor exitHandler print
        healthCheckTries credsArg execEnvArg = (some res, trace) → res.err = none →
      ∃ (handler : ServiceHandler) (pre mid : List Event) (msg : HealthMessage),
        lastHandler res.handlerList = some handler ∧ msg.IsHealthy = true ∧
        trace = pre ++ [Event.Start handler] ++ mid ++
          [Event.EnableHealthChecks handler false, Event.Receive msg, Event.Sleep 1]) ∧
    (∀ (execEnv : ExecutionEnvironment) (creds : Option MicrokubeCredentials),
      ∃ later : List Event,
        (kubeSchedulerConstructor W execEnv creds).2 =
          (apiServerBringUp W execEnv creds).2 ++ later ∧
        (∀ handlers, (kubeSchedulerConstructor W execEnv creds).1 = some (handlers, none) →
          later = [Event.TempDir "microkube-unittests-kubeconfig",
            Event.CreateClientKubeconfig
              (W.pathJoin (W.TempDir "microkube-unittests-kubeconfig").1 "kubeconfig")] ++
            (NewKubeSchedulerHandler W execEnv creds).2) ∧
        (later ≠ [] →
          ∃ (leaf : ServiceHandler) (pre mid : List Event) (msg : HealthMessage)
            (started : StartResult),
            (apiServerBringUp W execEnv creds).1 = some started ∧
            lastHandler started.handlerList = some leaf ∧ msg.IsHealthy = true ∧
            (apiServerBringUp W execEnv creds).2 = pre ++ [Event.Start leaf] ++ mid ++
              [Event.EnableHealthChecks leaf false, Event.Receive msg, Event.Sleep 1])) := by
  have key : ∀ (portbase : Int) (name binary : String) (constructor : UUTConstrutor)
      (exitHandler : ExitHandler) (print : Bool) (healthCheckTries : Int)
      (credsArg : Option MicrokubeCredentials) (execEnvArg : Option ExecutionEnvironment)
      (res : StartResult) (trace : List Event),
      StartHandlerForTest W portbase name binary constructor exitHandler print
        healthCheckTries credsArg execEnvArg = (some res, trace) → res.err = none →
      ∃ (handler : ServiceHandler) (pre mid : List Event) (msg : HealthMessage),
        lastHandler res.handlerList = some handler ∧ msg.IsHealthy = true ∧
        trace = pre ++ [Event.Start handler] ++ mid ++
          [Event.EnableHealthChecks handler false, Event.Receive msg, Event.Sleep 1] := by
    intro portbase name binary constructor exitHandler print healthCheckTries credsArg
      execEnvArg res trace hrun hnil
    obtain ⟨l, handler, tc, j, _, hlast, _, _, hj, hres, htrace⟩ :=
      StartHandlerForTest_nil_error_inv W portbase name binary constructor exitHandler print
        healthCheckTries credsArg execEnvArg res trace hrun hnil
    refine ⟨handler, setupCalls W name binary credsArg ++ tc, attempts W handler 0 j,
      W.health handler j, ?_, hj, ?_⟩
    · rw [hres]; exact hlast
    · rw [htrace, attempts_succ, Nat.zero_add]
      simp [probeAttempt]
  refine ⟨key, ?_⟩
  intro execEnv creds
  rcases hb : apiServerBringUp W execEnv creds with ⟨_ | started, tb⟩
  · refine ⟨[], ?_, ?_, fun h => absurd rfl h⟩
    · have hb2 := hb
      unfold apiServerBringUp at hb2
      simp [kubeSchedulerConstructor, hb2]
    · intro handlers hh
      have hb2 := hb
      unfold apiServerBringUp at hb2
      simp [kubeSchedulerConstructor, hb2] at hh
  · have hb2 := hb
    unfold apiServerBringUp at hb2
    rcases herr : started.err with _ | e
    swap
    · refine ⟨[], ?_, ?_, fun h => absurd rfl h⟩
      · simp [kubeSchedulerConstructor, hb2, herr]
      · intro handlers hh
        simp [kubeSchedulerConstructor, hb2, herr] at hh
    · obtain ⟨leaf, pre, mid, msg, hleaf, hmsg, htb⟩ := key _ _ _ _ _ _ _ _ _ _ _ hb2 herr
      have hstruct : ∃ (leaf : ServiceHandler) (pre mid : List Event) (msg : HealthMessage)
          (started2 : StartResult),
          (some started, tb).1 = some started2 ∧
          lastHandler started2.handlerList = some leaf ∧ msg.IsHealthy = true ∧
          (some started, tb).2 = pre ++ [Event.Start leaf] ++ mid ++
            [Event.EnableHealthChecks leaf false, Event.Receive msg, Event.Sleep 1] :=
        ⟨leaf, pre, mid, msg, started, rfl, hleaf, hmsg, htb⟩
      unfold kubeSchedulerConstructor
      simp only [hb2, herr]
      rcases (W.TempDir "microkube-unittests-kubeconfig").2 with _ | e
      swap
      · exact ⟨[Event.TempDir "microkube-unittests-kubeconfig"], rfl,
          fun handlers hh => by simp at hh, fun _ => hstruct⟩
      simp only
      rcases W.CreateClientKubeconfig execEnv creds
        (W.pathJoin (W.TempDir "microkube-unittests-kubeconfig").1 "kubeconfig") "127.0.0.1"
        with _ | e
      swap
      · exact ⟨_, (List.append_assoc _ _ _), fun handlers hh => by simp at hh, fun _ => hstruct⟩
      simp only
      rcases hmade : NewKubeSchedulerHandler W execEnv creds with ⟨_ | ⟨e | h⟩, made⟩
      · refine ⟨[Event.TempDir "microkube-unittests-kubeconfig",
          Event.CreateClientKubeconfig
            (W.pathJoin (W.TempDir "microkube-unittests-kubeconfig").1 "kubeconfig")] ++ made,
          by simp, fun handlers hh => by simp at hh, fun _ => hstruct⟩
      · refine ⟨[Event.TempDir "microkube-unittests-kubeconfig",
          Event.CreateClientKubeconfig
            (W.pathJoin (W.TempDir "microkube-unittests-kubeconfig").1 "kubeconfig")] ++ made,
          by simp, fun handlers hh => by simp at hh, fun _ => hstruct⟩
      · refine ⟨[Event.TempDir "microkube-unittests-kubeconfig",
          Event.CreateClientKubeconfig
            (W.pathJoin (W.TempDir "microkube-unittests-kubeconfig").1 "kubeconfig")] ++ made,
          by simp, fun handlers hh => rfl, fun _ => hstruct⟩

/-- C4 (witness): one try on the sample world that is healthy at once, and the
scheduler constructor on the same world. -/
theorem C4_nil_error_only_after_healthy_witness :
    (∃ (handler : ServiceHandler) (pre mid : List Event) (msg : HealthMessage),
      lastHandler (StartResult.mk (some [ServiceHandler.other "etcd"])
        (some ⟨"/tmp/microkube-unittests-etcd/kubeconfig"⟩)
        (some ⟨"/opt/etcd", "127.0.0.1", ⟨false, "etcd"⟩, 0, "/tmp/microkube-unittests-etcd",
          "sudo", "8.8.8.8", 107, [100]⟩) none).handlerList = some handler ∧
      msg.IsHealthy = true ∧
      [Event.TempDir "microkube-unittests-etcd",
        Event.CreateOrLoadCertificates "/tmp/microkube-unittests-etcd",
        Event.FindBinary "etcd",
        Event.Start (ServiceHandler.other "etcd"),
        Event.EnableHealthChecks (ServiceHandler.other "etcd") false,
        Event.Receive ⟨true, none⟩, Event.Sleep 1] =
        pre ++ [Event.Start handler] ++ mid ++
          [Event.EnableHealthChecks handler false, Event.Receive msg, Event.Sleep 1]) ∧
    (∃ later : List Event,
      (kubeSchedulerConstructor (sampleWorld (some 0)) sampleEnv (some ⟨"/k"⟩)).2 =
        (apiServerBringUp (sampleWorld (some 0)) sampleEnv (some ⟨"/k"⟩)).2 ++ later ∧
      (∀ handlers,
        (kubeSchedulerConstructor (sampleWorld (some 0)) sampleEnv (some ⟨"/k"⟩)).1 =
          some (handlers, none) →
        later = [Event.TempDir "microkube-unittests-kubeconfig",
          Event.CreateClientKubeconfig
            ((sampleWorld (some 0)).pathJoin
              ((sampleWorld (some 0)).TempDir "microkube-unittests-kubeconfig").1 "kubeconfig")] ++
          (NewKubeSchedulerHandler (sampleWorld (some 0)) sampleEnv (some ⟨"/k"⟩)).2) ∧
      (later ≠ [] →
        ∃ (leaf : ServiceHandler) (pre mid : List Event) (msg : HealthMessage)
          (started : StartResult),
          (apiServerBringUp (sampleWorld (some 0)) sampleEnv (some ⟨"/k"⟩)).1 = some started ∧
          lastHandler started.handlerList = some leaf ∧ msg.IsHealthy = true ∧
          (apiServerBringUp (sampleWorld (some 0)) sampleEnv (some ⟨"/k"⟩)).2 =
            pre ++ [Event.Start leaf] ++ mid ++
              [Event.EnableHealthChecks leaf false, Event.Receive msg, Event.Sleep 1])) :=
  ⟨(C4_nil_error_only_after_healthy (sampleWorld (some 0))).1 100 "etcd" "etcd"
      sampleConstructor 0 false 1 none none _ _ rfl rfl,
    (C4_nil_error_only_after_healthy (sampleWorld (some 0))).2 sampleEnv (some ⟨"/k"⟩)⟩

/-! ### C5: the list returned by `kubeSchedulerConstructor` -/

theorem kubeSchedulerConstructor_nil_error_inv (W : World) (execEnv : ExecutionEnvironment)
    (creds : Option MicrokubeCredentials) (handlers : HandlerSlice) (trace : List Event)
    (hrun : kubeSchedulerConstructor W execEnv creds = (some (handlers, none), trace)) :
    ∃ (prereq all : List ServiceHandler) (started : StartResult) (tc made : List Event)
      (h : KubeSchedulerHandler),
      W.kubeApiServerConstructor
        (execEnvUsed W (-1) "kube-apiserver" "hyperkube" execEnv.ExitHandler false (some execEnv))
        (some (credsUsed W "kube-apiserver" creds)) = (some (some prereq, none), tc) ∧
      (apiServerBringUp W execEnv creds).1 = some started ∧
      started.handlerList = some prereq ∧
      NewKubeSchedulerHandler W execEnv creds = (some (Except.ok h), made) ∧
      handlers = some all ∧
      all = prereq ++ [ServiceHandler.kubeScheduler h] ∧
      all ≠ [] ∧
      all.length = prereq.length + 1 ∧
      (∀ i, i < prereq.length → all.get? i = prereq.get? i) ∧
      all.get? prereq.length = some (ServiceHandler.kubeScheduler h) ∧
      lastHandler handlers = some (ServiceHandler.kubeScheduler h) := by
  rcases hb : apiServerBringUp W execEnv creds with ⟨_ | started, tb⟩
  · have hb2 := hb
    unfold apiServerBringUp at hb2
    simp [kubeSchedulerConstructor, hb2] at hrun
  have hb2 := hb
  unfold apiServerBringUp at hb2
  rcases herr : started.err with _ | e
  swap
  · simp [kubeSchedulerConstructor, hb2, herr] at hrun
  obtain ⟨l, leaf, tc, j, hctor, _, _, _, _, hres, _⟩ :=
    StartHandlerForTest_nil_error_inv W (-1) "kube-apiserver" "hyperkube"
      W.kubeApiServerConstructor execEnv.ExitHandler false 30 creds (some execEnv) started tb
      hb2 herr
  unfold kubeSchedulerConstructor at hrun
  simp only [hb2, herr] at hrun
  rcases htd : (W.TempDir "microkube-unittests-kubeconfig").2 with _ | e
  swap
  · simp [htd] at hrun
  simp only [htd] at hrun
  rcases hck : W.CreateClientKubeconfig execEnv creds
    (W.pathJoin (W.TempDir "microkube-unittests-kubeconfig").1 "kubeconfig") "127.0.0.1"
    with _ | e
  swap
  · simp [hck] at hrun
  simp only [hck] at hrun
  rcases hmade : NewKubeSchedulerHandler W execEnv creds with ⟨_ | ⟨e | h⟩, made⟩
  · simp [hmade] at hrun
  · simp [hmade] at hrun
  · simp only [hmade, Prod.mk.injEq, Option.some.injEq, and_true] at hrun
    have hhl : started.handlerList = some l := by rw [hres]
    rw [hhl] at hrun
    refine ⟨l, l ++ [ServiceHandler.kubeScheduler h], started, tc, made, h, hctor, rfl, hhl,
      rfl, ?_, rfl, by simp, by simp, ?_, by simp, ?_⟩
    · rw [← hrun.1]; rfl
    · intro i hi
      simp [List.getElem?_append_left hi]
    · rw [← hrun.1]
      simp [lastHandler]

/-- C5: `kubeSchedulerConstructor` returns a nil error exactly on the path on
which the kube-apiserver bring-up, the temporary directory, the client
kubeconfig and `NewKubeSchedulerHandler` all succeed.  Whenever it returns a nil
error, its list is the list that the kube-apiserver constructor returned and the
prerequisite bring-up passed on, in the same order, followed by one more
element, the handler that `NewKubeSchedulerHandler` built; the list is not
empty, each prerequisite keeps its position before the scheduler handler, and
the last element, the one `handlerList[len(handlerList)-1]` selects, is the
scheduler handler.  And whenever those four steps succeed, it does return that
list with a nil error, after the calls of the bring-up, of the two steps
between and of `NewKubeSchedulerHandler`. -/
theorem C5_scheduler_handler_appended_last (W : World) (execEnv : ExecutionEnvironment)
    (creds : Option MicrokubeCredentials) :
    (∀ (handlers : HandlerSlice) (trace : List Event),
      kubeSchedulerConstructor W execEnv creds = (some (handlers, none), trace) →
      ∃ (prereq all : List ServiceHandler) (started : StartResult) (tc made : List Event)
        (h : KubeSchedulerHandler),
        W.kubeApiServerConstructor
          (execEnvUsed W (-1) "kube-apiserver" "hyperkube" execEnv.ExitHandler false
            (some execEnv))
          (some (credsUsed W "kube-apiserver" creds)) = (some (some prereq, none), tc) ∧
        (apiServerBringUp W execEnv creds).1 = some started ∧
        started.handlerList = some prereq ∧
        NewKubeSchedulerHandler W execEnv creds = (some (Except.ok h), made) ∧
        handlers = some all ∧
        all = prereq ++ [ServiceHandler.kubeScheduler h] ∧
        all ≠ [] ∧
        all.length = prereq.length + 1 ∧
        (∀ i, i < prereq.length → all.get? i = prereq.get? i) ∧
        all.get? prereq.length = some (ServiceHandler.kubeScheduler h) ∧
        lastHandler handlers = some (ServiceHandler.kubeScheduler h)) ∧
    (∀ (started : StartResult) (prereq : List ServiceHandler) (h : KubeSchedulerHandler)
      (made : List Event),
      (apiServerBringUp W execEnv creds).1 = some started →
      started.err = none →
      started.handlerList = some prereq →
      (W.TempDir "microkube-unittests-kubeconfig").2 = none →
      W.CreateClientKubeconfig execEnv creds
        (W.pathJoin (W.TempDir "microkube-unittests-kubeconfig").1 "kubeconfig")
        "127.0.0.1" = none →
      NewKubeSchedulerHandler W execEnv creds = (some (Except.ok h), made) →
      kubeSchedulerConstructor W execEnv creds =
        (some (some (prereq ++ [ServiceHandler.kubeScheduler h]), none),
          (apiServerBringUp W execEnv creds).2 ++
            [Event.TempDir "microkube-unittests-kubeconfig",
              Event.CreateClientKubeconfig
                (W.pathJoin (W.TempDir "microkube-unittests-kubeconfig").1 "kubeconfig")] ++
            made)) := by
  refine ⟨fun handlers trace hrun =>
    kubeSchedulerConstructor_nil_error_inv W execEnv creds handlers trace hrun, ?_⟩
  intro started prereq h made hb herr hlist htd hck hmade
  have hb2 : (StartHandlerForTest W (-1) "kube-apiserver" "hyperkube"
      W.kubeApiServerConstructor execEnv.ExitHandler false 30 creds (some execEnv)).1 =
      some started := hb
  unfold kubeSchedulerConstructor
  simp only [hb2, herr, htd, hck, hmade, hlist, apiServerBringUp]
  simp

/-- C5 (witness): the scheduler constructor on the sample world returns the etcd and
kube-apiserver handlers followed by the new scheduler handler. -/
theorem C5_scheduler_handler_appended_last_witness :
    kubeSchedulerConstructor (sampleWorld (some 0)) sampleEnv (some ⟨"/k"⟩) =
      (some (some [ServiceHandler.other "etcd", ServiceHandler.other "kube-apiserver",
          ServiceHandler.kubeScheduler ⟨⟨0, "http://localhost:10251/healthz"⟩, none,
            "/opt/hyperkube", "/k", "/tmp/work/kube-scheduler.cfg",
            ⟨false, "kube-scheduler"⟩⟩], none),
        [Event.TempDir "microkube-unittests-kube-apiserver",
          Event.FindBinary "hyperkube",
          Event.Start (ServiceHandler.other "etcd"),
          Event.Start (ServiceHandler.other "kube-apiserver"),
          Event.EnableHealthChecks (ServiceHandler.other "kube-apiserver") false,
          Event.Receive ⟨true, none⟩, Event.Sleep 1,
          Event.TempDir "microkube-unittests-kubeconfig",
          Event.CreateClientKubeconfig "/tmp/microkube-unittests-kubeconfig/kubeconfig",
          Event.CreateKubeSchedulerConfig "/tmp/work/kube-scheduler.cfg",
          Event.NewHandler "http://localhost:10251/healthz"]) ∧
    (∃ (prereq all : List ServiceHandler) (started : StartResult) (tc made : List Event)
      (h : KubeSchedulerHandler),
      (sampleWorld (some 0)).kubeApiServerConstructor
        (execEnvUsed (sampleWorld (some 0)) (-1) "kube-apiserver" "hyperkube"
          sampleEnv.ExitHandler false (some sampleEnv))
        (some (credsUsed (sampleWorld (some 0)) "kube-apiserver" (some ⟨"/k"⟩))) =
          (some (some prereq, none), tc) ∧
      (apiServerBringUp (sampleWorld (some 0)) sampleEnv (some ⟨"/k"⟩)).1 = some started ∧
      started.handlerList = some prereq ∧
      NewKubeSchedulerHandler (sampleWorld (some 0)) sampleEnv (some ⟨"/k"⟩) =
        (some (Except.ok h), made) ∧
      some [ServiceHandler.other "etcd", ServiceHandler.other "kube-apiserver",
        ServiceHandler.kubeScheduler ⟨⟨0, "http://localhost:10251/healthz"⟩, none,
          "/opt/hyperkube", "/k", "/tmp/work/kube-scheduler.cfg",
          ⟨false, "kube-scheduler"⟩⟩] = some all ∧
      all = prereq ++ [ServiceHandler.kubeScheduler h] ∧
      all ≠ [] ∧
      all.length = prereq.length + 1 ∧
      (∀ i, i < prereq.length → all.get? i = prereq.get? i) ∧
      all.get? prereq.length = some (ServiceHandler.kubeScheduler h) ∧
      lastHandler (some [ServiceHandler.other "etcd", ServiceHandler.other "kube-apiserver",
        ServiceHandler.kubeScheduler ⟨⟨0, "http://localhost:10251/healthz"⟩, none,
          "/opt/hyperkube", "/k", "/tmp/work/kube-scheduler.cfg",
          ⟨false, "kube-scheduler"⟩⟩]) = some (ServiceHandler.kubeScheduler h)) :=
  ⟨(C5_scheduler_handler_appended_last (sampleWorld (some 0)) sampleEnv (some ⟨"/k"⟩)).2
      ⟨some [ServiceHandler.other "etcd", ServiceHandler.other "kube-apiserver"],
        some ⟨"/k"⟩,
        some (execEnvUsed (sampleWorld (some 0)) (-1) "kube-apiserver" "hyperkube"
          sampleEnv.ExitHandler false (some sampleEnv)), none⟩
      [ServiceHandler.other "etcd", ServiceHandler.other "kube-apiserver"]
      ⟨⟨0, "http://localhost:10251/healthz"⟩, none, "/opt/hyperkube", "/k",
        "/tmp/work/kube-scheduler.cfg", ⟨false, "kube-scheduler"⟩⟩
      [Event.CreateKubeSchedulerConfig "/tmp/work/kube-scheduler.cfg",
        Event.NewHandler "http://localhost:10251/healthz"]
      rfl rfl rfl rfl rfl rfl,
    (C5_scheduler_handler_appended_last (sampleWorld (some 0)) sampleEnv (some ⟨"/k"⟩)).1 _ _
      rfl⟩

/-! ### C6: wrapped errors -/

theorem infix_append_middle (a b c : String) : b.data <:+: (a ++ b ++ c).data :=
  ⟨a.data, c.data, by simp⟩

theorem infix_append_left (a b : String) : a.data <:+: (a ++ b).data :=
  ⟨[], b.data, by simp⟩

theorem infix_append_right (a b : String) : b.data <:+: (a ++ b).data :=
  ⟨a.data, [], by simp⟩

/-- C6 (as stated): for every service name the error of `StartHandlerForTest`
would contain the name.  With the name `%%` and a constructor that fails with
`boom`, the text is `% handler creation failed: ` and the quoted `boom`, and
does not contain `%%`. -/
theorem C6_percent_name_counterexample :
    (StartHandlerForTest (sampleWorld none) 100 "%%" "etcd" failingConstructor 0 false 1
        none none).1 =
      some ⟨none, none, none, some "% handler creation failed: \x27boom\x27"⟩ ∧
    ¬ ("%%".data <:+: "% handler creation failed: \x27boom\x27".data) := by
  refine ⟨by decide, by decide⟩

/-- C6 (amended): an error `e` of the kube-apiserver bring-up makes
`kubeSchedulerConstructor` return the error `kube-apiserver startup prereq failed `
followed by `e`; and for a service name without a percent sign, an error of the
constructor, or of `Start` on the leaf handler, makes `StartHandlerForTest` return
a non-nil error whose text contains the name and the text of that error. -/
theorem C6_errors_are_wrapped (W : World) (portbase : Int) (name binary : String)
    (exitHandler : ExitHandler) (print : Bool) (healthCheckTries : Int)
    (credsArg : Option MicrokubeCredentials) (execEnvArg : Option ExecutionEnvironment) :
    (∀ (execEnv : ExecutionEnvironment) (creds : Option MicrokubeCredentials)
      (started : StartResult) (e : String),
      (apiServerBringUp W execEnv creds).1 = some started → started.err = some e →
      (kubeSchedulerConstructor W execEnv creds).1 =
          some (started.handlerList, some ("kube-apiserver startup prereq failed " ++ e)) ∧
        e.data <:+: ("kube-apiserver startup prereq failed " ++ e).data) ∧
    (∀ (constructor : UUTConstrutor) (returned : HandlerSlice) (e : String) (tc : List Event),
      '%' ∉ name.data →
      (W.TempDir ("microkube-unittests-" ++ name)).2 = none →
      (W.FindBinary binary).2 = none →
      constructor (execEnvUsed W portbase name binary exitHandler print execEnvArg)
        (some (credsUsed W name credsArg)) = (some (returned, some e), tc) →
      (StartHandlerForTest W portbase name binary constructor exitHandler print
          healthCheckTries credsArg execEnvArg).1 =
          some ⟨none, none, none, some (name ++ " handler creation failed: \x27" ++ e ++ "\x27")⟩ ∧
        name.data <:+: (name ++ " handler creation failed: \x27" ++ e ++ "\x27").data ∧
        e.data <:+: (name ++ " handler creation failed: \x27" ++ e ++ "\x27").data) ∧
    (∀ (constructor : UUTConstrutor) (handlerList : List ServiceHandler)
      (handler : ServiceHandler) (e : String) (tc : List Event),
      '%' ∉ name.data →
      (W.TempDir ("microkube-unittests-" ++ name)).2 = none →
      (W.FindBinary binary).2 = none →
      constructor (execEnvUsed W portbase name binary exitHandler print execEnvArg)
        (some (credsUsed W name credsArg)) = (some (some handlerList, none), tc) →
      handlerList.getLast? = some handler →
      W.Start handler = some e →
      (StartHandlerForTest W portbase name binary constructor exitHandler print
          healthCheckTries credsArg execEnvArg).1 =
          some ⟨none, none, none, some (name ++ " startup failed: \x27" ++ e ++ "\x27")⟩ ∧
        name.data <:+: (name ++ " startup failed: \x27" ++ e ++ "\x27").data ∧
        e.data <:+: (name ++ " startup failed: \x27" ++ e ++ "\x27").data) := by
  have hq : ∀ (mid err : String), '%' ∉ name.data → '%' ∉ mid.data →
      Errorf W.fmtOther (name ++ (mid ++ "\x27%s\x27")) (some err) =
        name ++ (mid ++ "\x27") ++ err ++ "\x27" := by
    intro mid err hname hmid
    have h := Errorf_literal_quoted W.fmtOther (name ++ mid) (some err)
      (by
        simp only [String.data_append, List.mem_append, not_or]
        exact ⟨hname, hmid⟩)
    rw [String.append_assoc] at h
    rw [h, String.append_assoc name mid]
    rfl
  refine ⟨?_, ?_, ?_⟩
  · intro execEnv creds started e hprereq hprereqErr
    refine ⟨?_, infix_append_right _ _⟩
    have hb : (StartHandlerForTest W (-1) "kube-apiserver" "hyperkube"
        W.kubeApiServerConstructor execEnv.ExitHandler false 30 creds (some execEnv)).1 =
        some started := hprereq
    have hf : Errorf W.fmtOther "kube-apiserver startup prereq failed %s" (some e) =
        "kube-apiserver startup prereq failed " ++ e :=
      Errorf_literal W.fmtOther "kube-apiserver startup prereq failed " (some e) (by decide)
    simp only [kubeSchedulerConstructor, hb, hprereqErr, hf]
  · intro constructor returned e tc hname htmp hbin hctor
    refine ⟨?_, ?_, infix_append_middle _ _ _⟩
    · have hf : Errorf W.fmtOther (name ++ (" handler creation failed: " ++ "\x27%s\x27"))
          (some e) = name ++ " handler creation failed: \x27" ++ e ++ "\x27" :=
        hq " handler creation failed: " e hname (by decide)
      have hfmt : name ++ " handler creation failed: \x27%s\x27" =
          name ++ (" handler creation failed: " ++ "\x27%s\x27") := rfl
      unfold StartHandlerForTest
      cases credsArg <;> cases execEnvArg <;>
        simp only [credsUsed, execEnvUsed] at hctor <;>
        simp only [htmp, hbin, hctor, hfmt, hf]
    · rw [String.append_assoc, String.append_assoc]
      exact infix_append_left _ _
  · intro constructor handlerList handler e tc hname htmp hbin hctor hlast hstart
    refine ⟨?_, ?_, infix_append_middle _ _ _⟩
    · have hf : Errorf W.fmtOther (name ++ (" startup failed: " ++ "\x27%s\x27"))
          (some e) = name ++ " startup failed: \x27" ++ e ++ "\x27" :=
        hq " startup failed: " e hname (by decide)
      have hfmt : name ++ " startup failed: \x27%s\x27" =
          name ++ (" startup failed: " ++ "\x27%s\x27") := rfl
      unfold StartHandlerForTest
      cases credsArg <;> cases execEnvArg <;>
        simp only [credsUsed, execEnvUsed] at hctor <;>
        simp only [htmp, hbin, hctor, lastHandler, hlast, hstart, hfmt, hf]
    · rw [String.append_assoc, String.append_assoc]
      exact infix_append_left _ _

/-- C6 (witness): the sample world in which no handler starts, with the name
`etcd`, the failing sample constructor and the working one. -/
theorem C6_errors_are_wrapped_witness :
    ((kubeSchedulerConstructor failingStartWorld sampleEnv (some ⟨"/k"⟩)).1 =
        some (none, some ("kube-apiserver startup prereq failed " ++
          "kube-apiserver startup failed: \x27exec format error\x27")) ∧
      "kube-apiserver startup failed: \x27exec format error\x27".data <:+:
        ("kube-apiserver startup prereq failed " ++
          "kube-apiserver startup failed: \x27exec format error\x27").data) ∧
    ((StartHandlerForTest failingStartWorld 100 "etcd" "etcd" failingConstructor 0 false 1
        none none).1 =
        some ⟨none, none, none, some "etcd handler creation failed: \x27boom\x27"⟩ ∧
      "etcd".data <:+: "etcd handler creation failed: \x27boom\x27".data ∧
      "boom".data <:+: "etcd handler creation failed: \x27boom\x27".data) ∧
    ((StartHandlerForTest failingStartWorld 100 "etcd" "etcd" sampleConstructor 0 false 1
        none none).1 =
        some ⟨none, none, none, some "etcd startup failed: \x27exec format error\x27"⟩ ∧
      "etcd".data <:+: "etcd startup failed: \x27exec format error\x27".data ∧
      "exec format error".data <:+: "etcd startup failed: \x27exec format error\x27".data) :=
  ⟨(C6_errors_are_wrapped failingStartWorld 100 "etcd" "etcd" 0 false 1 none none).1
      sampleEnv (some ⟨"/k"⟩)
      ⟨none, none, none, some "kube-apiserver startup failed: \x27exec format error\x27"⟩
      "kube-apiserver startup failed: \x27exec format error\x27" rfl rfl,
    (C6_errors_are_wrapped failingStartWorld 100 "etcd" "etcd" 0 false 1 none none).2.1
      failingConstructor none "boom" [] (by decide) rfl rfl rfl,
    (C6_errors_are_wrapped failingStartWorld 100 "etcd" "etcd" 0 false 1 none none).2.2
      sampleConstructor [ServiceHandler.other "etcd"] (ServiceHandler.other "etcd")
      "exec format error" [] (by decide) rfl rfl rfl rfl rfl⟩

/-! ### C7: setup errors -/

/-- C7 (evaluation at the failing input): no credential bundle is supplied and
`CreateOrLoadCertificates` fails; `StartHandlerForTest` discards that result,
goes on to call `Start` on the handler and returns a nil error. -/
theorem C7_credential_failure_is_ignored :
    (failingCertsWorld.CreateOrLoadCertificates "/tmp/microkube-unittests-etcd").2 =
      some "permission denied" ∧
    StartHandlerForTest failingCertsWorld 100 "etcd" "etcd" sampleConstructor 0 false 1
        none none =
      (some ⟨some [ServiceHandler.other "etcd"], some ⟨""⟩,
          some ⟨"/opt/etcd", "127.0.0.1", ⟨false, "etcd"⟩, 0, "/tmp/microkube-unittests-etcd",
            "sudo", "8.8.8.8", 107, [100]⟩, none⟩,
        [Event.TempDir "microkube-unittests-etcd",
          Event.CreateOrLoadCertificates "/tmp/microkube-unittests-etcd",
          Event.FindBinary "etcd",
          Event.Start (ServiceHandler.other "etcd"),
          Event.EnableHealthChecks (ServiceHandler.other "etcd") false,
          Event.Receive ⟨true, none⟩, Event.Sleep 1]) := by
  refine ⟨rfl, by decide⟩

theorem StartHandlerForTest_binary_not_found (W : World) (portbase : Int) (name binary : String)
    (constructor : UUTConstrutor) (exitHandler : ExitHandler) (print : Bool)
    (healthCheckTries : Int) (credsArg : Option MicrokubeCredentials)
    (execEnvArg : Option ExecutionEnvironment) (e : String)
    (htmp : (W.TempDir ("microkube-unittests-" ++ name)).2 = none)
    (hbin : (W.FindBinary binary).2 = some e) :
    ∃ m, StartHandlerForTest W portbase name binary constructor exitHandler print
        healthCheckTries credsArg execEnvArg =
      (some ⟨none, none, none, some m⟩, setupCalls W name binary credsArg) ∧
      ∀ h, Event.Start h ∉ setupCalls W name binary credsArg := by
  refine ⟨Errorf W.fmtOther ("error while searching for " ++ name ++ " binary: \x27%s\x27")
    (some e), ?_, ?_⟩
  · unfold StartHandlerForTest
    cases credsArg <;> simp [htmp, hbin, setupCalls]
  · intro h
    cases credsArg <;> simp [setupCalls]

theorem StartHandlerForTest_constructor_fails (W : World) (portbase : Int) (name binary : String)
    (constructor : UUTConstrutor) (exitHandler : ExitHandler) (print : Bool)
    (healthCheckTries : Int) (credsArg : Option MicrokubeCredentials)
    (execEnvArg : Option ExecutionEnvironment) (returned : HandlerSlice) (e : String)
    (tc : List Event)
    (htmp : (W.TempDir ("microkube-unittests-" ++ name)).2 = none)
    (hbin : (W.FindBinary binary).2 = none)
    (hctor : constructor (execEnvUsed W portbase name binary exitHandler print execEnvArg)
      (some (credsUsed W name credsArg)) = (some (returned, some e), tc)) :
    ∃ m, StartHandlerForTest W portbase name binary constructor exitHandler print
        healthCheckTries credsArg execEnvArg =
      (some ⟨none, none, none, some m⟩, setupCalls W name binary credsArg ++ tc) := by
  refine ⟨Errorf W.fmtOther (name ++ " handler creation failed: \x27%s\x27") (some e), ?_⟩
  unfold StartHandlerForTest
  cases credsArg <;> cases execEnvArg <;>
    simp only [credsUsed, execEnvUsed] at hctor <;>
    simp [htmp, hbin, hctor, setupCalls]

/-! ### C8, C9: `Start` and `stop` of the scheduler handler -/

theorem stop_no_live (s : HandlerState) (h : ∀ r, live s r = true → s.handler.cmd = some r) :
    ∀ r, live (KubeSchedulerHandler.stop s) r = false := by
  intro r
  unfold KubeSchedulerHandler.stop
  rcases hc : s.handler.cmd with _ | c
  · simp only
    by_contra hl
    have := h r (by simpa using hl)
    rw [hc] at this
    cases this
  · simp only
    by_cases hrc : r = c
    · subst hrc
      rcases hget : s.runners[r]? with _ | x
      · simp [live, hget]
      · rcases x with ⟨b, a, o, st⟩
        cases st <;> simp [live, hget, CmdHandler.Stop]
    · have hne : c ≠ r := fun e => hrc e.symm
      by_contra hl
      have hl2 : live s r = true := by
        simpa [live, List.getElem?_modify_ne _ _ hne] using hl
      have := h r hl2
      rw [hc] at this
      exact hrc (Option.some.inj this).symm

theorem start_live (s : HandlerState) (launch : error) (h : ∀ r, live s r = false) :
    ∀ r, live (KubeSchedulerHandler.Start s launch).1 r = true →
      (KubeSchedulerHandler.Start s launch).1.handler.cmd = some r := by
  intro r hl
  by_cases hr : r < s.runners.length
  · have := h r
    simp [live, KubeSchedulerHandler.Start, List.getElem?_append_left hr] at hl this
    obtain ⟨a, ha, hst⟩ := hl
    exact absurd hst (this a ha)
  · by_cases hr2 : r = s.runners.length
    · subst hr2; rfl
    · have hlen : (s.runners ++ [((NewCmdHandler s.handler.binary
          ["kube-scheduler", "--config", s.handler.config] s.handler.out).Start launch).1]).length
          ≤ r := by
        simp; omega
      simp [live, KubeSchedulerHandler.Start, List.getElem?_eq_none hlen] at hl

theorem not_live_of_idle (s : HandlerState) (h : (liveRunners s).isEmpty = true) :
    ∀ r, live s r = false := by
  intro r
  by_contra hl
  have hl2 : live s r = true := by simpa using hl
  have hr : r < s.runners.length := by
    by_contra hge
    have hnone : s.runners[r]? = none := List.getElem?_eq_none (by omega)
    simp [live, hnone] at hl2
  have hmem : r ∈ liveRunners s := by
    simp only [liveRunners, List.mem_filter, List.mem_range]
    exact ⟨hr, hl2⟩
  rw [List.isEmpty_iff.mp h] at hmem
  cases hmem

theorem runCalls_invariant :
    ∀ (calls : List HandlerCall) (s : HandlerState),
      runnerInvariant s → noStartWhileLive s calls = true →
      runnerInvariant (runCalls s calls) := by
  intro calls
  induction calls with
  | nil => intro s hinv _; exact hinv
  | cons c rest ih =>
    intro s hinv hcalls
    cases c with
    | stop =>
      have hno := stop_no_live s hinv
      exact ih (KubeSchedulerHandler.stop s)
        (fun r hl => absurd hl (by simp [hno r]))
        (by simpa [noStartWhileLive] using hcalls)
    | Start launch =>
      simp only [noStartWhileLive, Bool.and_eq_true] at hcalls
      exact ih (KubeSchedulerHandler.Start s launch).1
        (start_live s launch (not_live_of_idle s hcalls.1)) hcalls.2

theorem noStartWhileLive_of_append :
    ∀ (done rest : List HandlerCall) (s : HandlerState),
      noStartWhileLive s (done ++ rest) = true → noStartWhileLive s done = true := by
  intro done
  induction done with
  | nil => intro _ _ _; rfl
  | cons c cs ih =>
    intro rest s h
    cases c with
    | stop => exact ih rest (KubeSchedulerHandler.stop s) (by simpa [noStartWhileLive] using h)
    | Start launch =>
      simp only [List.cons_append, noStartWhileLive, Bool.and_eq_true] at h ⊢
      exact ⟨h.1, ih rest _ h.2⟩

theorem length_le_one_of_all_eq (l : List Nat) (a : Nat) (hnd : l.Nodup)
    (h : ∀ x ∈ l, x = a) : l.length ≤ 1 := by
  match l, hnd, h with
  | [], _, _ => simp
  | [_], _, _ => simp
  | x :: y :: _, hnd, h =>
    have hx := h x (by simp)
    have hy := h y (by simp)
    rw [List.nodup_cons] at hnd
    exact absurd (by rw [hx, hy]; simp) hnd.1

/-- C8 (as stated): a handler would have at most one live runner after every
sequence of calls.  After two calls of `Start` whose processes both launch, the
runners 0 and 1 are both live and `cmd` refers to runner 1 only. -/
theorem C8_second_start_counterexample :
    liveRunners (runCalls (freshState sampleHandler)
      [HandlerCall.Start none, HandlerCall.Start none]) = [0, 1] ∧
    (runCalls (freshState sampleHandler)
      [HandlerCall.Start none, HandlerCall.Start none]).handler.cmd = some 1 ∧
    ¬ (liveRunners (runCalls (freshState sampleHandler)
      [HandlerCall.Start none, HandlerCall.Start none])).length ≤ 1 := by
  decide

/-- C8 (amended): along every sequence of `Start` and `stop` calls on a freshly
built handler in which no `Start` is called while a runner is live (a `Start`
after a `stop`, or after a `Start` whose launch failed, is allowed), at every
point at most one runner is live, and a live runner is the one `cmd` refers
to. -/
theorem C8_at_most_one_live_runner (h : KubeSchedulerHandler) (calls done rest : List HandlerCall)
    (hsplit : calls = done ++ rest)
    (hcalls : noStartWhileLive (freshState h) calls = true) :
    (liveRunners (runCalls (freshState h) done)).length ≤ 1 ∧
    ∀ r, r ∈ liveRunners (runCalls (freshState h) done) →
      (runCalls (freshState h) done).handler.cmd = some r := by
  subst hsplit
  have hdone := noStartWhileLive_of_append done rest (freshState h) hcalls
  have hinit : runnerInvariant (freshState h) :=
    fun r hl => by simp [live, freshState] at hl
  have hinv := runCalls_invariant done (freshState h) hinit hdone
  have hmem : ∀ r, r ∈ liveRunners (runCalls (freshState h) done) →
      (runCalls (freshState h) done).handler.cmd = some r := by
    intro r hr
    exact hinv r (by simpa [liveRunners] using (List.mem_filter.mp hr).2)
  refine ⟨?_, hmem⟩
  rcases hc : (runCalls (freshState h) done).handler.cmd with _ | c
  · have : liveRunners (runCalls (freshState h) done) = [] := by
      apply List.eq_nil_iff_forall_not_mem.mpr
      intro r hr
      have := hmem r hr
      rw [hc] at this
      cases this
    simp [this]
  · apply length_le_one_of_all_eq _ c
    · exact (List.nodup_range _).filter _
    · intro r hr
      have := hmem r hr
      rw [hc] at this
      exact (Option.some.inj this).symm

/-- C8 (witness): a `Start` whose launch fails, a retry that launches, `stop`,
and `Start` again, seen after the first four of five calls: runner 2 alone is
live and `cmd` refers to it. -/
theorem C8_at_most_one_live_runner_witness :
    liveRunners (runCalls (freshState sampleHandler)
      [HandlerCall.Start (some "exec format error"), HandlerCall.Start none, HandlerCall.stop,
        HandlerCall.Start none]) = [2] ∧
    (liveRunners (runCalls (freshState sampleHandler)
      [HandlerCall.Start (some "exec format error"), HandlerCall.Start none, HandlerCall.stop,
        HandlerCall.Start none])).length ≤ 1 ∧
    ∀ r, r ∈ liveRunners (runCalls (freshState sampleHandler)
        [HandlerCall.Start (some "exec format error"), HandlerCall.Start none,
          HandlerCall.stop, HandlerCall.Start none]) →
      (runCalls (freshState sampleHandler)
        [HandlerCall.Start (some "exec format error"), HandlerCall.Start none,
          HandlerCall.stop, HandlerCall.Start none]).handler.cmd = some r :=
  ⟨by decide,
    C8_at_most_one_live_runner sampleHandler
      [HandlerCall.Start (some "exec format error"), HandlerCall.Start none, HandlerCall.stop,
        HandlerCall.Start none, HandlerCall.stop]
      [HandlerCall.Start (some "exec format error"), HandlerCall.Start none, HandlerCall.stop,
        HandlerCall.Start none]
      [HandlerCall.stop] rfl (by decide)⟩

/-- C9 (as stated): after `Start` and `stop`, a second `stop` would send no
further request to the runner and `stop; stop` would equal `stop`.  The second
`stop` calls `Stop` on runner 0 once more. -/
theorem C9_second_stop_counterexample :
    (KubeSchedulerHandler.stop (KubeSchedulerHandler.stop
      (KubeSchedulerHandler.Start (freshState sampleHandler) none).1)).calls =
      [RunnerCall.Start 0, RunnerCall.Stop 0, RunnerCall.Stop 0] ∧
    KubeSchedulerHandler.stop (KubeSchedulerHandler.stop
      (KubeSchedulerHandler.Start (freshState sampleHandler) none).1) ≠
    KubeSchedulerHandler.stop (KubeSchedulerHandler.Start (freshState sampleHandler) none).1 := by
  decide

/-- C9 (amended): on a handler whose `cmd` is nil, `stop` calls no runner and
changes nothing; and after `Start` and `stop`, a second `stop` leaves every field
of the handler and every runner as the first `stop` left them, and calls `Stop`
once more on the runner that `Start` stored in `cmd`. -/
theorem C9_stop_twice (base : BaseServiceHandler) (binary kubeconfig config : String)
    (out : OutputHandler) (runners : List CmdHandler) (calls : List RunnerCall)
    (s : HandlerState) (launch : error) :
    KubeSchedulerHandler.stop ⟨⟨base, none, binary, kubeconfig, config, out⟩, runners, calls⟩ =
      ⟨⟨base, none, binary, kubeconfig, config, out⟩, runners, calls⟩ ∧
    (KubeSchedulerHandler.stop (KubeSchedulerHandler.stop
        (KubeSchedulerHandler.Start s launch).1)).handler =
      (KubeSchedulerHandler.stop (KubeSchedulerHandler.Start s launch).1).handler ∧
    (KubeSchedulerHandler.stop (KubeSchedulerHandler.Start s launch).1).handler =
      ⟨s.handler.BaseServiceHandler, some s.runners.length, s.handler.binary,
        s.handler.kubeconfig, s.handler.config, s.handler.out⟩ ∧
    (KubeSchedulerHandler.stop (KubeSchedulerHandler.stop
        (KubeSchedulerHandler.Start s launch).1)).runners =
      (KubeSchedulerHandler.stop (KubeSchedulerHandler.Start s launch).1).runners ∧
    (KubeSchedulerHandler.stop (KubeSchedulerHandler.stop
        (KubeSchedulerHandler.Start s launch).1)).calls =
      (KubeSchedulerHandler.stop (KubeSchedulerHandler.Start s launch).1).calls ++
        [RunnerCall.Stop s.runners.length] := by
  refine ⟨rfl, rfl, rfl, ?_, rfl⟩
  simp only [KubeSchedulerHandler.stop, KubeSchedulerHandler.Start]
  apply List.ext_getElem?
  intro i
  by_cases hi : i = s.runners.length
  · subst hi
    simp only [List.getElem?_modify_eq, List.getElem?_concat_length, Option.map_some']
    cases launch <;> simp [NewCmdHandler, CmdHandler.Start, CmdHandler.Stop]
  · have hne : s.runners.length ≠ i := fun e => hi e.symm
    simp only [List.getElem?_modify_ne _ _ hne]

/-! ### C10: names of the entries of `parseDoc` -/

/-- C10 (evaluation at the failing input): one deployment with three containers
that each have a liveness probe gives the entry name `kobjSdnsHO` three times,
so the names are not pairwise distinct and `writeFile` declares that constant
three times. -/
theorem C10_health_object_name_repeats :
    (parseDocs sampleDecode ⟨[], false, "dns"⟩ ["kube-dns"]).2 = none ∧
    (parseDocs sampleDecode ⟨[], false, "dns"⟩ ["kube-dns"]).1.entries.map fileEntry.name =
      ["kobjSdnsO0", "kobjSdnsHO", "kobjSdnsHO", "kobjSdnsHO"] ∧
    ¬ ((parseDocs sampleDecode ⟨[], false, "dns"⟩ ["kube-dns"]).1.entries.map
      fileEntry.name).Nodup ∧
    declaredConstants (parseDocs sampleDecode ⟨[], false, "dns"⟩ ["kube-dns"]).1 =
      ["const kobjSdnsO0", "const kobjSdnsHO", "const kobjSdnsHO", "const kobjSdnsHO"] := by
  decide

end Microkube
